import Mathlib

/-!
# Velero plugin server: deferred-initialisation action registry

Shallow embedding of `pkg/cmd/server/plugin/plugin.go`.

* A Go `error` is a record carrying its message.
* Every value obtained from a collaborator outside this file (a logger, a
  clientset, a REST configuration, ...) is a handle identified by a number.
* `client.Factory` is an interface: its four methods are fields of a record and
  may read and change a hidden state of type `σ`. Each call is also written to a
  call log, so that "which accessor was called, and how often" is observable.
* Collaborators that return `(T, error)` are read with the Go convention: a nil
  error comes with a usable value, so they return `Except GoError T`.
* The infallible constructors `backup.New...Action` / `restore.New...Action` live
  in other packages; their results are kept symbolically, as the constructor
  name applied to the arguments the source passes.
-/

namespace Velero

/-! ## Values handed over by collaborators -/

/-- Go `error` value: only its message is observable. -/
structure GoError where
  message : String
deriving DecidableEq, Repr

/-- Handle of a `logrus.FieldLogger`. -/
structure Logger where
  id : Nat
deriving DecidableEq, Repr

/-- Handle of a `kubernetes.Interface` returned by `f.KubeClient()`. -/
structure Clientset where
  id : Nat
deriving DecidableEq, Repr

/-- Handle of the Velero clientset returned by `f.Client()`. -/
structure VeleroClientset where
  id : Nat
deriving DecidableEq, Repr

/-- Handle of the `*rest.Config` returned by `f.ClientConfig()`. -/
structure RestConfig where
  id : Nat
deriving DecidableEq, Repr

/-- Handle of the clientset returned by `apiextensions.NewForConfig`. -/
structure ApiextensionsClientset where
  id : Nat
deriving DecidableEq, Repr

/-- Handle of the helper returned by `velerodiscovery.NewHelper`. -/
structure DiscoveryHelper where
  id : Nat
deriving DecidableEq, Repr

/-- Handle of the action returned by `backup.NewServiceAccountAction`. -/
structure ServiceAccountAction where
  id : Nat
deriving DecidableEq, Repr

/-! ## Accessors derived from a clientset (pure getters of client-go) -/

/-- Result of `clientset.Discovery()`. -/
structure DiscoveryInterface where
  clientset : Clientset
deriving DecidableEq, Repr

/-- Result of `client.CoreV1().ConfigMaps(ns)`. -/
structure ConfigMapInterface where
  clientset : Clientset
  ns : String
deriving DecidableEq, Repr

/-- Result of `client.StorageV1().StorageClasses()`. -/
structure StorageClassInterface where
  clientset : Clientset
deriving DecidableEq, Repr

/-- Result of `client.CoreV1().Nodes()`. -/
structure NodeInterface where
  clientset : Clientset
deriving DecidableEq, Repr

/-- Result of `veleroClient.VeleroV1().PodVolumeBackups(ns)`. -/
structure PodVolumeBackupInterface where
  clientset : VeleroClientset
  ns : String
deriving DecidableEq, Repr

/-- Result of `client.ApiextensionsV1beta1().CustomResourceDefinitions()`. -/
structure CustomResourceDefinitionInterface where
  clientset : ApiextensionsClientset
deriving DecidableEq, Repr

/-- Result of `backup.NewClusterRoleBindingListerMap(clientset)`. -/
structure ClusterRoleBindingListerMap where
  clientset : Clientset
deriving DecidableEq, Repr

/-- Getter `clientset.Discovery()`. -/
def Clientset.Discovery (c : Clientset) : DiscoveryInterface := ⟨c⟩

/-- Getter chain `client.CoreV1().ConfigMaps(ns)`. -/
def Clientset.CoreV1_ConfigMaps (c : Clientset) (ns : String) : ConfigMapInterface := ⟨c, ns⟩

/-- Getter chain `client.StorageV1().StorageClasses()`. -/
def Clientset.StorageV1_StorageClasses (c : Clientset) : StorageClassInterface := ⟨c⟩

/-- Getter chain `client.CoreV1().Nodes()`. -/
def Clientset.CoreV1_Nodes (c : Clientset) : NodeInterface := ⟨c⟩

/-- Getter chain `veleroClient.VeleroV1().PodVolumeBackups(ns)`. -/
def VeleroClientset.VeleroV1_PodVolumeBackups (c : VeleroClientset) (ns : String) :
    PodVolumeBackupInterface := ⟨c, ns⟩

/-- Getter chain `client.ApiextensionsV1beta1().CustomResourceDefinitions()`. -/
def ApiextensionsClientset.ApiextensionsV1beta1_CustomResourceDefinitions
    (c : ApiextensionsClientset) : CustomResourceDefinitionInterface := ⟨c⟩

/-! ## Handlers -/

/-- The value an initializer hands back as `interface{}`: which action
constructor built it, and from which arguments. -/
inductive Handler where
  | backupPVCAction (logger : Logger)
  | backupPodAction (logger : Logger)
  | backupServiceAccountAction (action : ServiceAccountAction)
  | backupRemapCRDVersionAction (logger : Logger) (crds : CustomResourceDefinitionInterface)
  | restoreJobAction (logger : Logger)
  | restorePodAction (logger : Logger)
  | restoreInitRestoreHookPodAction (logger : Logger)
  | restoreResticRestoreAction (logger : Logger) (configMaps : ConfigMapInterface)
      (podVolumeBackups : PodVolumeBackupInterface)
  | restoreServiceAction (logger : Logger)
  | restoreServiceAccountAction (logger : Logger)
  | restoreAddPVCFromPodAction (logger : Logger)
  | restoreAddPVFromPVCAction (logger : Logger)
  | restoreCRDV1PreserveUnknownFieldsAction (logger : Logger)
  | restoreChangeStorageClassAction (logger : Logger) (configMaps : ConfigMapInterface)
      (storageClasses : StorageClassInterface)
  | restoreRoleBindingAction (logger : Logger)
  | restoreClusterRoleBindingAction (logger : Logger)
  | restoreChangePVCNodeSelectorAction (logger : Logger) (configMaps : ConfigMapInterface)
      (nodes : NodeInterface)
  | restoreAPIServiceAction (logger : Logger)
deriving DecidableEq, Repr

/-- Namespaces of the namespace-scoped accessors a handler was built from. -/
def Handler.namespaces : Handler → List String
  | .restoreResticRestoreAction _ cm pvb => [cm.ns, pvb.ns]
  | .restoreChangeStorageClassAction _ cm _ => [cm.ns]
  | .restoreChangePVCNodeSelectorAction _ cm _ => [cm.ns]
  | _ => []

/-- Package `backup`: `NewPVCAction(logger)`. -/
def backup.NewPVCAction (logger : Logger) : Handler := .backupPVCAction logger

/-- Package `backup`: `NewPodAction(logger)`. -/
def backup.NewPodAction (logger : Logger) : Handler := .backupPodAction logger

/-- Package `backup`: `NewRemapCRDVersionAction(logger, crds)`. -/
def backup.NewRemapCRDVersionAction (logger : Logger)
    (crds : CustomResourceDefinitionInterface) : Handler :=
  .backupRemapCRDVersionAction logger crds

/-- Package `backup`: `NewClusterRoleBindingListerMap(clientset)`. -/
def backup.NewClusterRoleBindingListerMap (c : Clientset) : ClusterRoleBindingListerMap := ⟨c⟩

/-- Package `restore`: `NewJobAction(logger)`. -/
def restore.NewJobAction (logger : Logger) : Handler := .restoreJobAction logger

/-- Package `restore`: `NewPodAction(logger)`. -/
def restore.NewPodAction (logger : Logger) : Handler := .restorePodAction logger

/-- Package `restore`: `NewInitRestoreHookPodAction(logger)`. -/
def restore.NewInitRestoreHookPodAction (logger : Logger) : Handler :=
  .restoreInitRestoreHookPodAction logger

/-- Package `restore`: `NewResticRestoreAction(logger, configMaps, podVolumeBackups)`. -/
def restore.NewResticRestoreAction (logger : Logger) (cm : ConfigMapInterface)
    (pvb : PodVolumeBackupInterface) : Handler :=
  .restoreResticRestoreAction logger cm pvb

/-- Package `restore`: `NewServiceAction(logger)`. -/
def restore.NewServiceAction (logger : Logger) : Handler := .restoreServiceAction logger

/-- Package `restore`: `NewServiceAccountAction(logger)`. -/
def restore.NewServiceAccountAction (logger : Logger) : Handler :=
  .restoreServiceAccountAction logger

/-- Package `restore`: `NewAddPVCFromPodAction(logger)`. -/
def restore.NewAddPVCFromPodAction (logger : Logger) : Handler :=
  .restoreAddPVCFromPodAction logger

/-- Package `restore`: `NewAddPVFromPVCAction(logger)`. -/
def restore.NewAddPVFromPVCAction (logger : Logger) : Handler :=
  .restoreAddPVFromPVCAction logger

/-- Package `restore`: `NewCRDV1PreserveUnknownFieldsAction(logger)`. -/
def restore.NewCRDV1PreserveUnknownFieldsAction (logger : Logger) : Handler :=
  .restoreCRDV1PreserveUnknownFieldsAction logger

/-- Package `restore`: `NewChangeStorageClassAction(logger, configMaps, storageClasses)`. -/
def restore.NewChangeStorageClassAction (logger : Logger) (cm : ConfigMapInterface)
    (sc : StorageClassInterface) : Handler :=
  .restoreChangeStorageClassAction logger cm sc

/-- Package `restore`: `NewRoleBindingAction(logger)`. -/
def restore.NewRoleBindingAction (logger : Logger) : Handler := .restoreRoleBindingAction logger

/-- Package `restore`: `NewClusterRoleBindingAction(logger)`. -/
def restore.NewClusterRoleBindingAction (logger : Logger) : Handler :=
  .restoreClusterRoleBindingAction logger

/-- Package `restore`: `NewChangePVCNodeSelectorAction(logger, configMaps, nodes)`. -/
def restore.NewChangePVCNodeSelectorAction (logger : Logger) (cm : ConfigMapInterface)
    (nodes : NodeInterface) : Handler :=
  .restoreChangePVCNodeSelectorAction logger cm nodes

/-- Package `restore`: `NewAPIServiceAction(logger)`. -/
def restore.NewAPIServiceAction (logger : Logger) : Handler := .restoreAPIServiceAction logger

/-! ## The world an initializer runs in -/

/-- Calls to collaborators that can fail or that read the factory. -/
inductive Call where
  | KubeClient
  | Client
  | ClientConfig
  | Namespace
  | NewHelper
  | NewServiceAccountAction
  | NewForConfig
deriving DecidableEq, Repr

/-- One entry of the call log: the call made and whether it succeeded. -/
structure Event where
  call : Call
  ok : Bool
deriving DecidableEq, Repr

/-- Log entry of a call that succeeded. -/
def Call.succeeded (c : Call) : Event := ⟨c, true⟩

/-- Log entry of a call that returned an error. -/
def Call.failed (c : Call) : Event := ⟨c, false⟩

/-- Hidden state of the collaborators together with the log of calls made so far. -/
structure World (σ : Type) where
  state : σ
  calls : List Event
deriving DecidableEq, Repr

/-- Interface `client.Factory`, restricted to the methods this file calls. -/
structure Factory (σ : Type) where
  KubeClient : σ → Except GoError Clientset × σ
  Client : σ → Except GoError VeleroClientset × σ
  ClientConfig : σ → Except GoError RestConfig × σ
  Namespace : σ → String × σ

/-- Fallible constructors of other packages: `velerodiscovery.NewHelper`,
`backup.NewServiceAccountAction` and `apiextensions.NewForConfig`. -/
structure Externals (σ : Type) where
  NewHelper : DiscoveryInterface → Logger → σ → Except GoError DiscoveryHelper × σ
  NewServiceAccountAction : Logger → ClusterRoleBindingListerMap → DiscoveryHelper → σ →
    Except GoError ServiceAccountAction × σ
  NewForConfig : RestConfig → σ → Except GoError ApiextensionsClientset × σ

/-- Run a collaborator call that cannot fail: advance the hidden state, log the
call. -/
def World.call {σ α : Type} (c : Call) (op : σ → α × σ) (w : World σ) : α × World σ :=
  ((op w.state).1, ⟨(op w.state).2, w.calls ++ [c.succeeded]⟩)

/-- Run a collaborator call that returns `(T, error)`: advance the hidden state,
log the call and whether its error was nil. -/
def World.attempt {σ α : Type} (c : Call) (op : σ → Except GoError α × σ) (w : World σ) :
    Except GoError α × World σ :=
  match op w.state with
  | (.ok a, s) => (.ok a, ⟨s, w.calls ++ [c.succeeded]⟩)
  | (.error e, s) => (.error e, ⟨s, w.calls ++ [c.failed]⟩)

/-- The pair `(interface{}, error)` an initializer returns; `none` is Go `nil`. -/
structure InitResult where
  handler : Option Handler
  err : Option GoError
deriving DecidableEq, Repr

/-- Type `veleroplugin.HandlerInitializer`: `func(logger) (interface{}, error)`. -/
abbrev HandlerInitializer (σ : Type) := Logger → World σ → InitResult × World σ

/-! ## Initializers that need only a logger -/

section Initializers

variable {σ : Type}

/-- Go `newPVBackupItemAction`. -/
def newPVBackupItemAction : HandlerInitializer σ := fun logger w =>
  (⟨some (backup.NewPVCAction logger), none⟩, w)

/-- Go `newPodBackupItemAction`. -/
def newPodBackupItemAction : HandlerInitializer σ := fun logger w =>
  (⟨some (backup.NewPodAction logger), none⟩, w)

/-- Go `newJobRestoreItemAction`. -/
def newJobRestoreItemAction : HandlerInitializer σ := fun logger w =>
  (⟨some (restore.NewJobAction logger), none⟩, w)

/-- Go `newPodRestoreItemAction`. -/
def newPodRestoreItemAction : HandlerInitializer σ := fun logger w =>
  (⟨some (restore.NewPodAction logger), none⟩, w)

/-- Go `newInitRestoreHookPodAction`. -/
def newInitRestoreHookPodAction : HandlerInitializer σ := fun logger w =>
  (⟨some (restore.NewInitRestoreHookPodAction logger), none⟩, w)

/-- Go `newServiceRestoreItemAction`. -/
def newServiceRestoreItemAction : HandlerInitializer σ := fun logger w =>
  (⟨some (restore.NewServiceAction logger), none⟩, w)

/-- Go `newServiceAccountRestoreItemAction`. -/
def newServiceAccountRestoreItemAction : HandlerInitializer σ := fun logger w =>
  (⟨some (restore.NewServiceAccountAction logger), none⟩, w)

/-- Go `newAddPVCFromPodRestoreItemAction`. -/
def newAddPVCFromPodRestoreItemAction : HandlerInitializer σ := fun logger w =>
  (⟨some (restore.NewAddPVCFromPodAction logger), none⟩, w)

/-- Go `newAddPVFromPVCRestoreItemAction`. -/
def newAddPVFromPVCRestoreItemAction : HandlerInitializer σ := fun logger w =>
  (⟨some (restore.NewAddPVFromPVCAction logger), none⟩, w)

/-- Go `newCRDV1PreserveUnknownFieldsRestoreItemAction`. -/
def newCRDV1PreserveUnknownFieldsRestoreItemAction : HandlerInitializer σ := fun logger w =>
  (⟨some (restore.NewCRDV1PreserveUnknownFieldsAction logger), none⟩, w)

/-- Go `newRoleBindingItemAction`. -/
def newRoleBindingItemAction : HandlerInitializer σ := fun logger w =>
  (⟨some (restore.NewRoleBindingAction logger), none⟩, w)

/-- Go `newClusterRoleBindingRestoreItemAction`. -/
def newClusterRoleBindingRestoreItemAction : HandlerInitializer σ := fun logger w =>
  (⟨some (restore.NewClusterRoleBindingAction logger), none⟩, w)

/-- Go `newAPIServiceRestoreItemAction`. -/
def newAPIServiceRestoreItemAction : HandlerInitializer σ := fun logger w =>
  (⟨some (restore.NewAPIServiceAction logger), none⟩, w)

/-! ## Initializers that capture the client factory

Each Go function below takes the factory and returns a closure. Running the
function is phase (a): it is given the world `w` it runs in and hands it back
together with the closure. Running the closure is phase (b). -/

/-- Go `newServiceAccountBackupItemAction`. -/
def newServiceAccountBackupItemAction (ext : Externals σ) (f : Factory σ) (w : World σ) :
    HandlerInitializer σ × World σ :=
  (fun logger w0 =>
    match w0.attempt .KubeClient f.KubeClient with
    | (.error err, w1) => (⟨none, some err⟩, w1)
    | (.ok clientset, w1) =>
      match w1.attempt .NewHelper (ext.NewHelper clientset.Discovery logger) with
      | (.error err, w2) => (⟨none, some err⟩, w2)
      | (.ok discoveryHelper, w2) =>
        match w2.attempt .NewServiceAccountAction
            (ext.NewServiceAccountAction logger
              (backup.NewClusterRoleBindingListerMap clientset) discoveryHelper) with
        | (.error err, w3) => (⟨none, some err⟩, w3)
        | (.ok action, w3) => (⟨some (.backupServiceAccountAction action), none⟩, w3),
   w)

/-- Go `newRemapCRDVersionBackupItemAction`. -/
def newRemapCRDVersionBackupItemAction (ext : Externals σ) (f : Factory σ) (w : World σ) :
    HandlerInitializer σ × World σ :=
  (fun logger w0 =>
    match w0.attempt .ClientConfig f.ClientConfig with
    | (.error err, w1) => (⟨none, some err⟩, w1)
    | (.ok config, w1) =>
      match w1.attempt .NewForConfig (ext.NewForConfig config) with
      | (.error err, w2) => (⟨none, some err⟩, w2)
      | (.ok client, w2) =>
        (⟨some (backup.NewRemapCRDVersionAction logger
            client.ApiextensionsV1beta1_CustomResourceDefinitions), none⟩, w2),
   w)

/-- Go `newResticRestoreItemAction`. The two `f.Namespace()` calls are made in
argument order, left to right. -/
def newResticRestoreItemAction (f : Factory σ) (w : World σ) :
    HandlerInitializer σ × World σ :=
  (fun logger w0 =>
    match w0.attempt .KubeClient f.KubeClient with
    | (.error err, w1) => (⟨none, some err⟩, w1)
    | (.ok client, w1) =>
      match w1.attempt .Client f.Client with
      | (.error err, w2) => (⟨none, some err⟩, w2)
      | (.ok veleroClient, w2) =>
        match w2.call .Namespace f.Namespace with
        | (ns1, w3) =>
          match w3.call .Namespace f.Namespace with
          | (ns2, w4) =>
            (⟨some (restore.NewResticRestoreAction logger (client.CoreV1_ConfigMaps ns1)
                (veleroClient.VeleroV1_PodVolumeBackups ns2)), none⟩, w4),
   w)

/-- Go `newChangeStorageClassRestoreItemAction`. -/
def newChangeStorageClassRestoreItemAction (f : Factory σ) (w : World σ) :
    HandlerInitializer σ × World σ :=
  (fun logger w0 =>
    match w0.attempt .KubeClient f.KubeClient with
    | (.error err, w1) => (⟨none, some err⟩, w1)
    | (.ok client, w1) =>
      match w1.call .Namespace f.Namespace with
      | (ns, w2) =>
        (⟨some (restore.NewChangeStorageClassAction logger (client.CoreV1_ConfigMaps ns)
            client.StorageV1_StorageClasses), none⟩, w2),
   w)

/-- Go `newChangePVCNodeSelectorItemAction`. -/
def newChangePVCNodeSelectorItemAction (f : Factory σ) (w : World σ) :
    HandlerInitializer σ × World σ :=
  (fun logger w0 =>
    match w0.attempt .KubeClient f.KubeClient with
    | (.error err, w1) => (⟨none, some err⟩, w1)
    | (.ok client, w1) =>
      match w1.call .Namespace f.Namespace with
      | (ns, w2) =>
        (⟨some (restore.NewChangePVCNodeSelectorAction logger (client.CoreV1_ConfigMaps ns)
            client.CoreV1_Nodes), none⟩, w2),
   w)

end Initializers

/-! ## The registry of the plugin server

`veleroplugin.NewServer`, `RegisterBackupItemAction`, `RegisterRestoreItemAction`
and `Serve` belong to package `framework`, and the eighteen name constants
(`PVBackupPlugin`, ...) are declared in another file of package `plugin`. The
registry follows the specification; the constants are a parameter
`names : PluginConst → String`, with `pluginNames` as the valuation the
specification describes. -/

/-- Identifiers of the plugin-name constants `NewCommand` refers to. Their
string values are declared in another file of package `plugin`; they enter as a
valuation `names : PluginConst → String`. -/
inductive PluginConst where
  | PVBackupPlugin
  | PodBackupPlugin
  | ServiceAccountBackupPlugin
  | RemapCRDVersionBackupPlugin
  | JobRestorePlugin
  | PodRestorePlugin
  | ResticRestorePlugin
  | InitRestoreHookPlugin
  | ServiceRestorePlugin
  | ServiceAccountRestorePlugin
  | AddPVCFromPodRestorePlugin
  | AddPVFromPVCRestorePlugin
  | ChangeStorageClassRestorePlugin
  | RoleBindingItemPlugin
  | ClusterRoleBindingRestorePlugin
  | CRDV1PreserveUnknownFieldsRestorePlugin
  | ChangePVCNodeSelectorPlugin
  | APIServiceRestorePlugin
deriving DecidableEq, Repr

/-- Modelled from the spec: the plugin kinds of package `framework`, as the
closed set of action categories of section 3 ("ActionCategory"). -/
inductive ActionCategory where
  | BackupItemAction
  | RestoreItemAction
deriving DecidableEq, Repr

/-- Modelled from the spec: the entry type of the server's registry, which
package `framework` declares; an `ActionDescriptor` (section 3) is a category, a
name and the initializer registered for them. -/
structure ActionDescriptor (σ : Type) where
  category : ActionCategory
  name : String
  initializer : HandlerInitializer σ

/-- Key `(category, name)` of a descriptor. -/
def ActionDescriptor.key {σ : Type} (d : ActionDescriptor σ) : ActionCategory × String :=
  (d.category, d.name)

/-- Modelled from the spec: the registry held by the server of package
`framework`; the `ActionRegistry` (section 3) maps `(category, name)` to a
descriptor, and the entries are kept in registration order. -/
structure ActionRegistry (σ : Type) where
  entries : List (ActionDescriptor σ)

/-- Modelled from the spec: the errors of the registry of package `framework`;
of the taxonomy in section 7, the two that concern registration and lookup. -/
inductive RegistryError where
  | RegistrationConflict (category : ActionCategory) (name : String)
  | NotFound (category : ActionCategory) (name : String)
deriving DecidableEq, Repr

/-- Modelled from the spec: the duplicate policy of the registry of package
`framework`, left open in section 9: a second registration of a key is
rejected, or it replaces the first. -/
inductive DuplicatePolicy where
  | reject
  | replace
deriving DecidableEq, Repr

/-- Whether the registry holds a descriptor for the key. -/
def ActionRegistry.hasKey {σ : Type} (r : ActionRegistry σ) (k : ActionCategory × String) :
    Bool :=
  r.entries.any (fun d => decide (d.key = k))

/-- Modelled from the spec: the registration step behind
`RegisterBackupItemAction` and `RegisterRestoreItemAction` of package
`framework`; `register(category, name, initializer)` of section 4.1 stores the
descriptor and does not invoke the initializer, and on a key that is already
present it fails with `RegistrationConflict` or replaces the entry, according to
the policy. -/
def ActionRegistry.register {σ : Type} (policy : DuplicatePolicy) (r : ActionRegistry σ)
    (d : ActionDescriptor σ) : Except RegistryError (ActionRegistry σ) :=
  if r.hasKey d.key then
    match policy with
    | .reject => .error (.RegistrationConflict d.category d.name)
    | .replace => .ok ⟨r.entries.map (fun e => if e.key = d.key then d else e)⟩
  else
    .ok ⟨r.entries ++ [d]⟩

/-- Modelled from the spec: the lookup the server of package `framework` does
when an action is requested; `lookup(category, name)` of section 4.1 is a pure
read that fails with `NotFound` when no descriptor matches. -/
def ActionRegistry.lookup {σ : Type} (r : ActionRegistry σ) (category : ActionCategory)
    (name : String) : Except RegistryError (HandlerInitializer σ) :=
  match r.entries.find? (fun d => decide (d.key = (category, name))) with
  | some d => .ok d.initializer
  | none => .error (.NotFound category name)

/-- Keys of a registry, in registration order. -/
def ActionRegistry.keys {σ : Type} (r : ActionRegistry σ) : List (ActionCategory × String) :=
  r.entries.map (fun d => d.key)

/-- Modelled from the spec: the value `veleroplugin.NewServer()` returns, of a
type declared in package `framework`; while it is being assembled it is the
registry so far, or the conflict that aborted the assembly (section 7). -/
abbrev Server (σ : Type) := Except RegistryError (ActionRegistry σ)

/-- Modelled from the spec: `veleroplugin.NewServer()` of package `framework`
starts from the empty registry. -/
def NewServer {σ : Type} : Server σ := .ok ⟨[]⟩

/-- Modelled from the spec: `RegisterBackupItemAction(name, initializer)` of
package `framework` registers under the backup category and returns the server
for chaining. -/
def Server.RegisterBackupItemAction {σ : Type} (s : Server σ) (policy : DuplicatePolicy)
    (name : String) (initializer : HandlerInitializer σ) : Server σ :=
  match s with
  | .error e => .error e
  | .ok r => r.register policy ⟨.BackupItemAction, name, initializer⟩

/-- Modelled from the spec: `RegisterRestoreItemAction(name, initializer)` of
package `framework` registers under the restore category and returns the server
for chaining. -/
def Server.RegisterRestoreItemAction {σ : Type} (s : Server σ) (policy : DuplicatePolicy)
    (name : String) (initializer : HandlerInitializer σ) : Server σ :=
  match s with
  | .error e => .error e
  | .ok r => r.register policy ⟨.RestoreItemAction, name, initializer⟩

section Assembly

variable {σ : Type}

/-- The `Run` function of the command built by Go `NewCommand(f)`, up to the
final `Serve()`: the chain of registrations, in source order. The five
initializers that capture `f` are built where the chain reaches them; the
result is the server handed to `Serve` and the world after the assembly. -/
def NewCommand.Run (policy : DuplicatePolicy) (ext : Externals σ) (names : PluginConst → String)
    (f : Factory σ) (w : World σ) : Server σ × World σ :=
  let pluginServer : Server σ := NewServer
  let s := pluginServer.RegisterBackupItemAction policy (names .PVBackupPlugin)
    newPVBackupItemAction
  let s := s.RegisterBackupItemAction policy (names .PodBackupPlugin) newPodBackupItemAction
  let i := newServiceAccountBackupItemAction ext f w
  let s := s.RegisterBackupItemAction policy (names .ServiceAccountBackupPlugin) i.1
  let w := i.2
  let i := newRemapCRDVersionBackupItemAction ext f w
  let s := s.RegisterBackupItemAction policy (names .RemapCRDVersionBackupPlugin) i.1
  let w := i.2
  let s := s.RegisterRestoreItemAction policy (names .JobRestorePlugin) newJobRestoreItemAction
  let s := s.RegisterRestoreItemAction policy (names .PodRestorePlugin) newPodRestoreItemAction
  let i := newResticRestoreItemAction f w
  let s := s.RegisterRestoreItemAction policy (names .ResticRestorePlugin) i.1
  let w := i.2
  let s := s.RegisterRestoreItemAction policy (names .InitRestoreHookPlugin)
    newInitRestoreHookPodAction
  let s := s.RegisterRestoreItemAction policy (names .ServiceRestorePlugin)
    newServiceRestoreItemAction
  let s := s.RegisterRestoreItemAction policy (names .ServiceAccountRestorePlugin)
    newServiceAccountRestoreItemAction
  let s := s.RegisterRestoreItemAction policy (names .AddPVCFromPodRestorePlugin)
    newAddPVCFromPodRestoreItemAction
  let s := s.RegisterRestoreItemAction policy (names .AddPVFromPVCRestorePlugin)
    newAddPVFromPVCRestoreItemAction
  let i := newChangeStorageClassRestoreItemAction f w
  let s := s.RegisterRestoreItemAction policy (names .ChangeStorageClassRestorePlugin) i.1
  let w := i.2
  let s := s.RegisterRestoreItemAction policy (names .RoleBindingItemPlugin)
    newRoleBindingItemAction
  let s := s.RegisterRestoreItemAction policy (names .ClusterRoleBindingRestorePlugin)
    newClusterRoleBindingRestoreItemAction
  let s := s.RegisterRestoreItemAction policy (names .CRDV1PreserveUnknownFieldsRestorePlugin)
    newCRDV1PreserveUnknownFieldsRestoreItemAction
  let i := newChangePVCNodeSelectorItemAction f w
  let s := s.RegisterRestoreItemAction policy (names .ChangePVCNodeSelectorPlugin) i.1
  let w := i.2
  let s := s.RegisterRestoreItemAction policy (names .APIServiceRestorePlugin)
    newAPIServiceRestoreItemAction
  (s, w)

/-- The category under which `NewCommand.Run` registers each name constant. -/
def PluginConst.category : PluginConst → ActionCategory
  | .PVBackupPlugin => .BackupItemAction
  | .PodBackupPlugin => .BackupItemAction
  | .ServiceAccountBackupPlugin => .BackupItemAction
  | .RemapCRDVersionBackupPlugin => .BackupItemAction
  | _ => .RestoreItemAction

/-- The initializer `NewCommand.Run` passes along with each name constant. -/
def PluginConst.initializer (ext : Externals σ) (f : Factory σ) (w : World σ) :
    PluginConst → HandlerInitializer σ
  | .PVBackupPlugin => newPVBackupItemAction
  | .PodBackupPlugin => newPodBackupItemAction
  | .ServiceAccountBackupPlugin => (newServiceAccountBackupItemAction ext f w).1
  | .RemapCRDVersionBackupPlugin => (newRemapCRDVersionBackupItemAction ext f w).1
  | .JobRestorePlugin => newJobRestoreItemAction
  | .PodRestorePlugin => newPodRestoreItemAction
  | .ResticRestorePlugin => (newResticRestoreItemAction f w).1
  | .InitRestoreHookPlugin => newInitRestoreHookPodAction
  | .ServiceRestorePlugin => newServiceRestoreItemAction
  | .ServiceAccountRestorePlugin => newServiceAccountRestoreItemAction
  | .AddPVCFromPodRestorePlugin => newAddPVCFromPodRestoreItemAction
  | .AddPVFromPVCRestorePlugin => newAddPVFromPVCRestoreItemAction
  | .ChangeStorageClassRestorePlugin => (newChangeStorageClassRestoreItemAction f w).1
  | .RoleBindingItemPlugin => newRoleBindingItemAction
  | .ClusterRoleBindingRestorePlugin => newClusterRoleBindingRestoreItemAction
  | .CRDV1PreserveUnknownFieldsRestorePlugin => newCRDV1PreserveUnknownFieldsRestoreItemAction
  | .ChangePVCNodeSelectorPlugin => (newChangePVCNodeSelectorItemAction f w).1
  | .APIServiceRestorePlugin => newAPIServiceRestoreItemAction

/-- The name constants in the order `NewCommand.Run` registers them. -/
def registrationOrder : List PluginConst :=
  [.PVBackupPlugin, .PodBackupPlugin, .ServiceAccountBackupPlugin, .RemapCRDVersionBackupPlugin,
   .JobRestorePlugin, .PodRestorePlugin, .ResticRestorePlugin, .InitRestoreHookPlugin,
   .ServiceRestorePlugin, .ServiceAccountRestorePlugin, .AddPVCFromPodRestorePlugin,
   .AddPVFromPVCRestorePlugin, .ChangeStorageClassRestorePlugin, .RoleBindingItemPlugin,
   .ClusterRoleBindingRestorePlugin, .CRDV1PreserveUnknownFieldsRestorePlugin,
   .ChangePVCNodeSelectorPlugin, .APIServiceRestorePlugin]

/-- The descriptor `NewCommand.Run` registers for a name constant. -/
def descriptorOf (ext : Externals σ) (names : PluginConst → String) (f : Factory σ)
    (w : World σ) (c : PluginConst) : ActionDescriptor σ :=
  ⟨c.category, names c, c.initializer ext f w⟩

/-- The registrations of `NewCommand.Run` as one list. -/
def registrations (ext : Externals σ) (names : PluginConst → String) (f : Factory σ)
    (w : World σ) : List (ActionDescriptor σ) :=
  registrationOrder.map (descriptorOf ext names f w)

/-- Registering a list of descriptors one after the other, starting from a server. -/
def Server.registerAll (policy : DuplicatePolicy) (s : Server σ) :
    List (ActionDescriptor σ) → Server σ
  | [] => s
  | d :: ds =>
    Server.registerAll policy
      (match s with
       | .error e => .error e
       | .ok r => r.register policy d) ds

/-- Distinct name constants registered under one category have distinct values
(section 3 of the specification: an `ActionName` is unique within a category). -/
def NamesDistinct (names : PluginConst → String) : Prop :=
  ∀ a b : PluginConst, a.category = b.category → names a = names b → a = b

end Assembly

/-! ## Properties of one invocation -/

section OutcomeProperties

variable {σ : Type}

/-- Calls in a log that went to the given collaborator. -/
def callsTo (c : Call) (tr : List Event) : Nat :=
  (tr.filter (fun ev => decide (ev.call = c))).length

/-- No retry and no step after a failure, read off the calls `tr` of one
invocation with result `r`: every client accessor is called at most once, every
call but the last succeeded, and the result carries an error exactly when the
last call failed. -/
def FailStop (r : InitResult) (tr : List Event) : Prop :=
  callsTo .KubeClient tr ≤ 1 ∧ callsTo .Client tr ≤ 1 ∧ callsTo .ClientConfig tr ≤ 1 ∧
  (∀ ev ∈ tr.dropLast, ev.ok = true) ∧
  (r.err.isSome = true ↔ ∃ ev, tr.getLast? = some ev ∧ ev.ok = false)

/-- The result holds a handler or an error, never both and never neither. -/
def ExactlyOne (r : InitResult) : Prop :=
  r.handler.isSome = !r.err.isSome

/-- Every namespace a returned handler is scoped to was returned by
`f.Namespace()`. -/
def NamespacesFrom (f : Factory σ) (r : InitResult) : Prop :=
  ∀ h, r.handler = some h → ∀ n ∈ h.namespaces, ∃ s, n = (f.Namespace s).1

/-- Message of the error a result carries, if it carries one. -/
def InitResult.errorMessage (r : InitResult) : Option String :=
  r.err.map (fun e => e.message)

/-- The result carries an error whose message contains `text`. -/
def InitResult.reports (r : InitResult) (text : String) : Prop :=
  ∃ e, r.err = some e ∧ text.toList <:+: e.message.toList

end OutcomeProperties

/-! ## Sample collaborators

The hidden state of the samples is the number of factory calls made so far. -/

/-- Sample factory whose three client accessors all fail with the given message. -/
def refusingFactory (msg : String) : Factory Nat where
  KubeClient := fun s => (.error ⟨msg⟩, s + 1)
  Client := fun s => (.error ⟨msg⟩, s + 1)
  ClientConfig := fun s => (.error ⟨msg⟩, s + 1)
  Namespace := fun s => ("ns-a", s)

/-- Sample factory whose accessors all succeed, for the given namespace. -/
def healthyFactory (ns : String) : Factory Nat where
  KubeClient := fun s => (.ok ⟨1⟩, s + 1)
  Client := fun s => (.ok ⟨2⟩, s + 1)
  ClientConfig := fun s => (.ok ⟨3⟩, s + 1)
  Namespace := fun s => (ns, s)

/-- Sample factory whose `KubeClient` succeeds and whose `Client` fails with the
given message. -/
def veleroClientRefusingFactory (msg : String) : Factory Nat where
  KubeClient := fun s => (.ok ⟨1⟩, s + 1)
  Client := fun s => (.error ⟨msg⟩, s + 1)
  ClientConfig := fun s => (.ok ⟨3⟩, s + 1)
  Namespace := fun s => ("ns-a", s)

/-- Sample factory whose `KubeClient` fails on its first call and succeeds from
the second call on. -/
def flakyFactory : Factory Nat where
  KubeClient := fun s => if s = 0 then (.error ⟨"connection refused"⟩, 1) else (.ok ⟨1⟩, s + 1)
  Client := fun s => (.ok ⟨2⟩, s + 1)
  ClientConfig := fun s => (.ok ⟨3⟩, s + 1)
  Namespace := fun s => ("ns-a", s)

/-- Sample constructors of the other packages, all succeeding. -/
def healthyExternals : Externals Nat where
  NewHelper := fun _ _ s => (.ok ⟨4⟩, s)
  NewServiceAccountAction := fun _ _ _ s => (.ok ⟨5⟩, s)
  NewForConfig := fun _ s => (.ok ⟨6⟩, s)

/-- Sample constructors of the other packages, all failing with the given message. -/
def refusingExternals (msg : String) : Externals Nat where
  NewHelper := fun _ _ s => (.error ⟨msg⟩, s)
  NewServiceAccountAction := fun _ _ _ s => (.error ⟨msg⟩, s)
  NewForConfig := fun _ s => (.error ⟨msg⟩, s)

/-- Sample values for the name constants; the pod plugins of the two categories
share one value. -/
def sampleNames : PluginConst → String
  | .PVBackupPlugin => "velero.io/pv"
  | .PodBackupPlugin => "velero.io/pod"
  | .ServiceAccountBackupPlugin => "velero.io/service-account"
  | .RemapCRDVersionBackupPlugin => "velero.io/crd-remap-version"
  | .JobRestorePlugin => "velero.io/job"
  | .PodRestorePlugin => "velero.io/pod"
  | .ResticRestorePlugin => "velero.io/restic"
  | .InitRestoreHookPlugin => "velero.io/init-restore-hook"
  | .ServiceRestorePlugin => "velero.io/service"
  | .ServiceAccountRestorePlugin => "velero.io/service-account"
  | .AddPVCFromPodRestorePlugin => "velero.io/add-pvc-from-pod"
  | .AddPVFromPVCRestorePlugin => "velero.io/add-pv-from-pvc"
  | .ChangeStorageClassRestorePlugin => "velero.io/change-storage-class"
  | .RoleBindingItemPlugin => "velero.io/role-bindings"
  | .ClusterRoleBindingRestorePlugin => "velero.io/cluster-role-bindings"
  | .CRDV1PreserveUnknownFieldsRestorePlugin => "velero.io/crd-preserve-fields"
  | .ChangePVCNodeSelectorPlugin => "velero.io/change-pvc-node-selector"
  | .APIServiceRestorePlugin => "velero.io/apiservice"

/-- Sample logger. -/
def sampleLogger : Logger := ⟨7⟩

/-- Sample world: nothing called yet. -/
def freshWorld : World Nat := ⟨0, []⟩

/-! ## Facts about the registry -/

section RegistryLemmas

variable {σ : Type}

theorem Run_eq_registerAll (policy : DuplicatePolicy) (ext : Externals σ)
    (names : PluginConst → String) (f : Factory σ) (w : World σ) :
    NewCommand.Run policy ext names f w
      = (Server.registerAll policy NewServer (registrations ext names f w), w) := rfl

theorem registrations_keys (ext : Externals σ) (names : PluginConst → String) (f : Factory σ)
    (w : World σ) :
    (registrations ext names f w).map (fun d => d.key)
      = registrationOrder.map (fun c => (c.category, names c)) := by
  simp [registrations, descriptorOf, ActionDescriptor.key, Function.comp_def]

theorem registrationOrder_nodup : registrationOrder.Nodup := by decide

theorem registrations_keys_nodup (ext : Externals σ) (names : PluginConst → String)
    (f : Factory σ) (w : World σ) (h : NamesDistinct names) :
    ((registrations ext names f w).map (fun d => d.key)).Nodup := by
  rw [registrations_keys]
  refine List.Nodup.map_on ?_ registrationOrder_nodup
  intro a _ b _ hab
  exact h a b (congrArg Prod.fst hab) (congrArg Prod.snd hab)

theorem hasKey_eq_false {acc : List (ActionDescriptor σ)} {d : ActionDescriptor σ}
    (h : d.key ∉ acc.map (fun e => e.key)) : (ActionRegistry.mk acc).hasKey d.key = false := by
  simp only [ActionRegistry.hasKey, List.any_eq_false, decide_eq_true_eq]
  intro e he hk
  exact h (List.mem_map.mpr ⟨e, he, hk⟩)

theorem registerAll_ok (policy : DuplicatePolicy) (ds acc : List (ActionDescriptor σ))
    (h : ((acc ++ ds).map (fun d => d.key)).Nodup) :
    Server.registerAll policy (.ok ⟨acc⟩) ds = .ok ⟨acc ++ ds⟩ := by
  induction ds generalizing acc with
  | nil => simp [Server.registerAll]
  | cons d ds ih =>
    have hd : d.key ∉ acc.map (fun e => e.key) := by
      rw [List.map_append, List.map_cons] at h
      have h2 := (List.nodup_append.mp h).2.2
      intro hmem
      exact h2 hmem (List.mem_cons_self _ _)
    have h3 : (((acc ++ [d]) ++ ds).map (fun e => e.key)).Nodup := by
      simpa [List.append_assoc] using h
    have := ih (acc ++ [d]) h3
    simp only [Server.registerAll, ActionRegistry.register, hasKey_eq_false hd]
    simpa [List.append_assoc] using this

theorem lookup_of_mem (ds : List (ActionDescriptor σ)) (d : ActionDescriptor σ)
    (hn : (ds.map (fun e => e.key)).Nodup) (hd : d ∈ ds) :
    (ActionRegistry.mk ds).lookup d.category d.name = .ok d.initializer := by
  induction ds with
  | nil => cases hd
  | cons e es ih =>
    rw [List.map_cons, List.nodup_cons] at hn
    by_cases hk : e.key = d.key
    · have hed : e = d := by
        rcases List.mem_cons.mp hd with h | h
        · exact h.symm
        · exact absurd (List.mem_map.mpr ⟨d, h, hk.symm⟩) hn.1
      subst hed
      simp [ActionRegistry.lookup, ActionDescriptor.key]
    · have hmem : d ∈ es := by
        rcases List.mem_cons.mp hd with h | h
        · exact absurd (by rw [h]) hk
        · exact h
      have := ih hn.2 hmem
      have hk2 : ¬ e.key = (d.category, d.name) := hk
      simp only [ActionRegistry.lookup, List.find?_cons, hk2, decide_False] at this ⊢
      exact this

theorem run_ok (policy : DuplicatePolicy) (ext : Externals σ) (names : PluginConst → String)
    (f : Factory σ) (w : World σ) (h : NamesDistinct names) :
    NewCommand.Run policy ext names f w = (.ok ⟨registrations ext names f w⟩, w) := by
  rw [Run_eq_registerAll, NewServer]
  have := registerAll_ok policy (registrations ext names f w) []
    (by simpa using registrations_keys_nodup ext names f w h)
  simpa using this

theorem lookup_registered (ext : Externals σ) (names : PluginConst → String) (f : Factory σ)
    (w : World σ) (h : NamesDistinct names) (c : PluginConst) :
    (ActionRegistry.mk (registrations ext names f w)).lookup c.category (names c)
      = .ok (c.initializer ext f w) := by
  have hmem : descriptorOf ext names f w c ∈ registrations ext names f w := by
    refine List.mem_map.mpr ⟨c, ?_, rfl⟩
    cases c <;> decide
  exact lookup_of_mem _ _ (registrations_keys_nodup ext names f w h) hmem

end RegistryLemmas

/-! ## One invocation of each factory-capturing initializer, path by path -/

section InvocationLemmas

variable {σ : Type}

theorem restic_KubeClient_fails (f : Factory σ) (w w0 : World σ) (logger : Logger)
    (e : GoError) (s1 : σ) (hK : f.KubeClient w0.state = (.error e, s1)) :
    (newResticRestoreItemAction f w).1 logger w0
      = (⟨none, some e⟩, ⟨s1, w0.calls ++ [Call.failed .KubeClient]⟩) := by
  simp [newResticRestoreItemAction, World.call, World.attempt, hK]

theorem restic_Client_fails (f : Factory σ) (w w0 : World σ) (logger : Logger)
    (c : Clientset) (e : GoError) (s1 s2 : σ) (hK : f.KubeClient w0.state = (.ok c, s1))
    (hC : f.Client s1 = (.error e, s2)) :
    (newResticRestoreItemAction f w).1 logger w0
      = (⟨none, some e⟩, ⟨s2, w0.calls ++ [Call.succeeded .KubeClient, Call.failed .Client]⟩) := by
  simp [newResticRestoreItemAction, World.call, World.attempt, hK, hC]

theorem restic_succeeds (f : Factory σ) (w w0 : World σ) (logger : Logger)
    (c : Clientset) (vc : VeleroClientset) (s1 s2 : σ)
    (hK : f.KubeClient w0.state = (.ok c, s1)) (hC : f.Client s1 = (.ok vc, s2)) :
    (newResticRestoreItemAction f w).1 logger w0
      = (⟨some (restore.NewResticRestoreAction logger
            (c.CoreV1_ConfigMaps (f.Namespace s2).1)
            (vc.VeleroV1_PodVolumeBackups (f.Namespace (f.Namespace s2).2).1)), none⟩,
         ⟨(f.Namespace (f.Namespace s2).2).2,
            w0.calls ++ [Call.succeeded .KubeClient, Call.succeeded .Client,
              Call.succeeded .Namespace, Call.succeeded .Namespace]⟩) := by
  simp [newResticRestoreItemAction, World.call, World.attempt, hK, hC]

theorem changeStorageClass_KubeClient_fails (f : Factory σ) (w w0 : World σ) (logger : Logger)
    (e : GoError) (s1 : σ) (hK : f.KubeClient w0.state = (.error e, s1)) :
    (newChangeStorageClassRestoreItemAction f w).1 logger w0
      = (⟨none, some e⟩, ⟨s1, w0.calls ++ [Call.failed .KubeClient]⟩) := by
  simp [newChangeStorageClassRestoreItemAction, World.call, World.attempt, hK]

theorem changeStorageClass_succeeds (f : Factory σ) (w w0 : World σ) (logger : Logger)
    (c : Clientset) (s1 : σ) (hK : f.KubeClient w0.state = (.ok c, s1)) :
    (newChangeStorageClassRestoreItemAction f w).1 logger w0
      = (⟨some (restore.NewChangeStorageClassAction logger
            (c.CoreV1_ConfigMaps (f.Namespace s1).1) c.StorageV1_StorageClasses), none⟩,
         ⟨(f.Namespace s1).2,
           w0.calls ++ [Call.succeeded .KubeClient, Call.succeeded .Namespace]⟩) := by
  simp [newChangeStorageClassRestoreItemAction, World.call, World.attempt, hK]

theorem changePVCNodeSelector_KubeClient_fails (f : Factory σ) (w w0 : World σ)
    (logger : Logger) (e : GoError) (s1 : σ) (hK : f.KubeClient w0.state = (.error e, s1)) :
    (newChangePVCNodeSelectorItemAction f w).1 logger w0
      = (⟨none, some e⟩, ⟨s1, w0.calls ++ [Call.failed .KubeClient]⟩) := by
  simp [newChangePVCNodeSelectorItemAction, World.call, World.attempt, hK]

theorem changePVCNodeSelector_succeeds (f : Factory σ) (w w0 : World σ) (logger : Logger)
    (c : Clientset) (s1 : σ) (hK : f.KubeClient w0.state = (.ok c, s1)) :
    (newChangePVCNodeSelectorItemAction f w).1 logger w0
      = (⟨some (restore.NewChangePVCNodeSelectorAction logger
            (c.CoreV1_ConfigMaps (f.Namespace s1).1) c.CoreV1_Nodes), none⟩,
         ⟨(f.Namespace s1).2,
           w0.calls ++ [Call.succeeded .KubeClient, Call.succeeded .Namespace]⟩) := by
  simp [newChangePVCNodeSelectorItemAction, World.call, World.attempt, hK]

theorem serviceAccount_KubeClient_fails (ext : Externals σ) (f : Factory σ) (w w0 : World σ)
    (logger : Logger) (e : GoError) (s1 : σ) (hK : f.KubeClient w0.state = (.error e, s1)) :
    (newServiceAccountBackupItemAction ext f w).1 logger w0
      = (⟨none, some e⟩, ⟨s1, w0.calls ++ [Call.failed .KubeClient]⟩) := by
  simp [newServiceAccountBackupItemAction, World.call, World.attempt, hK]

theorem serviceAccount_NewHelper_fails (ext : Externals σ) (f : Factory σ) (w w0 : World σ)
    (logger : Logger) (c : Clientset) (e : GoError) (s1 s2 : σ)
    (hK : f.KubeClient w0.state = (.ok c, s1))
    (hH : ext.NewHelper c.Discovery logger s1 = (.error e, s2)) :
    (newServiceAccountBackupItemAction ext f w).1 logger w0
      = (⟨none, some e⟩, ⟨s2,
        w0.calls ++ [Call.succeeded .KubeClient, Call.failed .NewHelper]⟩) := by
  simp [newServiceAccountBackupItemAction, World.call, World.attempt, hK, hH]

theorem serviceAccount_NewServiceAccountAction_fails (ext : Externals σ) (f : Factory σ)
    (w w0 : World σ) (logger : Logger) (c : Clientset) (d : DiscoveryHelper) (e : GoError)
    (s1 s2 s3 : σ) (hK : f.KubeClient w0.state = (.ok c, s1))
    (hH : ext.NewHelper c.Discovery logger s1 = (.ok d, s2))
    (hA : ext.NewServiceAccountAction logger (backup.NewClusterRoleBindingListerMap c) d s2
      = (.error e, s3)) :
    (newServiceAccountBackupItemAction ext f w).1 logger w0
      = (⟨none, some e⟩,
         ⟨s3,
           w0.calls ++ [Call.succeeded .KubeClient, Call.succeeded .NewHelper,
             Call.failed .NewServiceAccountAction]⟩) := by
  simp [newServiceAccountBackupItemAction, World.call, World.attempt, hK, hH, hA]

theorem serviceAccount_succeeds (ext : Externals σ) (f : Factory σ)
    (w w0 : World σ) (logger : Logger) (c : Clientset) (d : DiscoveryHelper)
    (a : ServiceAccountAction) (s1 s2 s3 : σ) (hK : f.KubeClient w0.state = (.ok c, s1))
    (hH : ext.NewHelper c.Discovery logger s1 = (.ok d, s2))
    (hA : ext.NewServiceAccountAction logger (backup.NewClusterRoleBindingListerMap c) d s2
      = (.ok a, s3)) :
    (newServiceAccountBackupItemAction ext f w).1 logger w0
      = (⟨some (.backupServiceAccountAction a), none⟩,
         ⟨s3,
           w0.calls ++ [Call.succeeded .KubeClient, Call.succeeded .NewHelper,
             Call.succeeded .NewServiceAccountAction]⟩) := by
  simp [newServiceAccountBackupItemAction, World.call, World.attempt, hK, hH, hA]

theorem remapCRD_ClientConfig_fails (ext : Externals σ) (f : Factory σ) (w w0 : World σ)
    (logger : Logger) (e : GoError) (s1 : σ) (hK : f.ClientConfig w0.state = (.error e, s1)) :
    (newRemapCRDVersionBackupItemAction ext f w).1 logger w0
      = (⟨none, some e⟩, ⟨s1, w0.calls ++ [Call.failed .ClientConfig]⟩) := by
  simp [newRemapCRDVersionBackupItemAction, World.call, World.attempt, hK]

theorem remapCRD_NewForConfig_fails (ext : Externals σ) (f : Factory σ) (w w0 : World σ)
    (logger : Logger) (cfg : RestConfig) (e : GoError) (s1 s2 : σ)
    (hK : f.ClientConfig w0.state = (.ok cfg, s1))
    (hN : ext.NewForConfig cfg s1 = (.error e, s2)) :
    (newRemapCRDVersionBackupItemAction ext f w).1 logger w0
      = (⟨none, some e⟩, ⟨s2,
        w0.calls ++ [Call.succeeded .ClientConfig, Call.failed .NewForConfig]⟩) := by
  simp [newRemapCRDVersionBackupItemAction, World.call, World.attempt, hK, hN]

theorem remapCRD_succeeds (ext : Externals σ) (f : Factory σ) (w w0 : World σ)
    (logger : Logger) (cfg : RestConfig) (ac : ApiextensionsClientset) (s1 s2 : σ)
    (hK : f.ClientConfig w0.state = (.ok cfg, s1))
    (hN : ext.NewForConfig cfg s1 = (.ok ac, s2)) :
    (newRemapCRDVersionBackupItemAction ext f w).1 logger w0
      = (⟨some (backup.NewRemapCRDVersionAction logger
            ac.ApiextensionsV1beta1_CustomResourceDefinitions), none⟩,
         ⟨s2, w0.calls ++ [Call.succeeded .ClientConfig, Call.succeeded .NewForConfig]⟩) := by
  simp [newRemapCRDVersionBackupItemAction, World.call, World.attempt, hK, hN]

/-- Every invocation of the restic restore initializer takes one of three paths. -/
theorem restic_paths (f : Factory σ) (w w0 : World σ) (logger : Logger) :
    (∃ e s1, f.KubeClient w0.state = (.error e, s1) ∧
      (newResticRestoreItemAction f w).1 logger w0
        = (⟨none, some e⟩, ⟨s1, w0.calls ++ [Call.failed .KubeClient]⟩)) ∨
    (∃ c e s1 s2, f.KubeClient w0.state = (.ok c, s1) ∧ f.Client s1 = (.error e, s2) ∧
      (newResticRestoreItemAction f w).1 logger w0
        = (⟨none, some e⟩,
           ⟨s2, w0.calls ++ [Call.succeeded .KubeClient, Call.failed .Client]⟩)) ∨
    (∃ c vc s1 s2, f.KubeClient w0.state = (.ok c, s1) ∧ f.Client s1 = (.ok vc, s2) ∧
      (newResticRestoreItemAction f w).1 logger w0
        = (⟨some (restore.NewResticRestoreAction logger
              (c.CoreV1_ConfigMaps (f.Namespace s2).1)
              (vc.VeleroV1_PodVolumeBackups (f.Namespace (f.Namespace s2).2).1)), none⟩,
           ⟨(f.Namespace (f.Namespace s2).2).2,
            w0.calls ++ [Call.succeeded .KubeClient, Call.succeeded .Client,
              Call.succeeded .Namespace, Call.succeeded .Namespace]⟩)) := by
  rcases hK : f.KubeClient w0.state with ⟨rK, s1⟩
  cases rK with
  | error e => exact Or.inl ⟨e, s1, rfl, restic_KubeClient_fails f w w0 logger e s1 hK⟩
  | ok c =>
    rcases hC : f.Client s1 with ⟨rC, s2⟩
    cases rC with
    | error e =>
      exact Or.inr (Or.inl ⟨c, e, s1, s2, rfl, hC,
        restic_Client_fails f w w0 logger c e s1 s2 hK hC⟩)
    | ok vc =>
      exact Or.inr (Or.inr ⟨c, vc, s1, s2, rfl, hC, restic_succeeds f w w0 logger c vc s1 s2 hK hC⟩)

/-- Every invocation of the change-storage-class initializer takes one of two paths. -/
theorem changeStorageClass_paths (f : Factory σ) (w w0 : World σ) (logger : Logger) :
    (∃ e s1, f.KubeClient w0.state = (.error e, s1) ∧
      (newChangeStorageClassRestoreItemAction f w).1 logger w0
        = (⟨none, some e⟩, ⟨s1, w0.calls ++ [Call.failed .KubeClient]⟩)) ∨
    (∃ c s1, f.KubeClient w0.state = (.ok c, s1) ∧
      (newChangeStorageClassRestoreItemAction f w).1 logger w0
        = (⟨some (restore.NewChangeStorageClassAction logger
              (c.CoreV1_ConfigMaps (f.Namespace s1).1) c.StorageV1_StorageClasses), none⟩,
           ⟨(f.Namespace s1).2,
            w0.calls ++ [Call.succeeded .KubeClient, Call.succeeded .Namespace]⟩)) := by
  rcases hK : f.KubeClient w0.state with ⟨rK, s1⟩
  cases rK with
  | error e =>
    exact Or.inl ⟨e, s1, rfl, changeStorageClass_KubeClient_fails f w w0 logger e s1 hK⟩
  | ok c => exact Or.inr ⟨c, s1, rfl, changeStorageClass_succeeds f w w0 logger c s1 hK⟩

/-- Every invocation of the change-PVC-node-selector initializer takes one of two paths. -/
theorem changePVCNodeSelector_paths (f : Factory σ) (w w0 : World σ) (logger : Logger) :
    (∃ e s1, f.KubeClient w0.state = (.error e, s1) ∧
      (newChangePVCNodeSelectorItemAction f w).1 logger w0
        = (⟨none, some e⟩, ⟨s1, w0.calls ++ [Call.failed .KubeClient]⟩)) ∨
    (∃ c s1, f.KubeClient w0.state = (.ok c, s1) ∧
      (newChangePVCNodeSelectorItemAction f w).1 logger w0
        = (⟨some (restore.NewChangePVCNodeSelectorAction logger
              (c.CoreV1_ConfigMaps (f.Namespace s1).1) c.CoreV1_Nodes), none⟩,
           ⟨(f.Namespace s1).2,
            w0.calls ++ [Call.succeeded .KubeClient, Call.succeeded .Namespace]⟩)) := by
  rcases hK : f.KubeClient w0.state with ⟨rK, s1⟩
  cases rK with
  | error e =>
    exact Or.inl ⟨e, s1, rfl, changePVCNodeSelector_KubeClient_fails f w w0 logger e s1 hK⟩
  | ok c => exact Or.inr ⟨c, s1, rfl, changePVCNodeSelector_succeeds f w w0 logger c s1 hK⟩

/-- Every invocation of the service-account backup initializer takes one of four paths. -/
theorem serviceAccount_paths (ext : Externals σ) (f : Factory σ) (w w0 : World σ)
    (logger : Logger) :
    (∃ e s1, f.KubeClient w0.state = (.error e, s1) ∧
      (newServiceAccountBackupItemAction ext f w).1 logger w0
        = (⟨none, some e⟩, ⟨s1, w0.calls ++ [Call.failed .KubeClient]⟩)) ∨
    (∃ c e s1 s2, f.KubeClient w0.state = (.ok c, s1) ∧
      ext.NewHelper c.Discovery logger s1 = (.error e, s2) ∧
      (newServiceAccountBackupItemAction ext f w).1 logger w0
        = (⟨none, some e⟩,
           ⟨s2, w0.calls ++ [Call.succeeded .KubeClient, Call.failed .NewHelper]⟩)) ∨
    (∃ c d e s1 s2 s3, f.KubeClient w0.state = (.ok c, s1) ∧
      ext.NewHelper c.Discovery logger s1 = (.ok d, s2) ∧
      ext.NewServiceAccountAction logger (backup.NewClusterRoleBindingListerMap c) d s2
        = (.error e, s3) ∧
      (newServiceAccountBackupItemAction ext f w).1 logger w0
        = (⟨none, some e⟩,
           ⟨s3, w0.calls ++ [Call.succeeded .KubeClient, Call.succeeded .NewHelper,
              Call.failed .NewServiceAccountAction]⟩)) ∨
    (∃ c d a s1 s2 s3, f.KubeClient w0.state = (.ok c, s1) ∧
      ext.NewHelper c.Discovery logger s1 = (.ok d, s2) ∧
      ext.NewServiceAccountAction logger (backup.NewClusterRoleBindingListerMap c) d s2
        = (.ok a, s3) ∧
      (newServiceAccountBackupItemAction ext f w).1 logger w0
        = (⟨some (.backupServiceAccountAction a), none⟩,
           ⟨s3, w0.calls ++ [Call.succeeded .KubeClient, Call.succeeded .NewHelper,
              Call.succeeded .NewServiceAccountAction]⟩)) := by
  rcases hK : f.KubeClient w0.state with ⟨rK, s1⟩
  cases rK with
  | error e => exact Or.inl ⟨e, s1, rfl, serviceAccount_KubeClient_fails ext f w w0 logger e s1 hK⟩
  | ok c =>
    rcases hH : ext.NewHelper c.Discovery logger s1 with ⟨rH, s2⟩
    cases rH with
    | error e =>
      exact Or.inr (Or.inl ⟨c, e, s1, s2, rfl, hH,
        serviceAccount_NewHelper_fails ext f w w0 logger c e s1 s2 hK hH⟩)
    | ok d =>
      rcases hA : ext.NewServiceAccountAction logger (backup.NewClusterRoleBindingListerMap c)
        d s2 with ⟨rA, s3⟩
      cases rA with
      | error e =>
        exact Or.inr (Or.inr (Or.inl ⟨c, d, e, s1, s2, s3, rfl, hH, hA,
          serviceAccount_NewServiceAccountAction_fails ext f w w0 logger c d e s1 s2 s3
            hK hH hA⟩))
      | ok a =>
        exact Or.inr (Or.inr (Or.inr ⟨c, d, a, s1, s2, s3, rfl, hH, hA,
          serviceAccount_succeeds ext f w w0 logger c d a s1 s2 s3 hK hH hA⟩))

/-- Every invocation of the remap-CRD-version initializer takes one of three paths. -/
theorem remapCRD_paths (ext : Externals σ) (f : Factory σ) (w w0 : World σ) (logger : Logger) :
    (∃ e s1, f.ClientConfig w0.state = (.error e, s1) ∧
      (newRemapCRDVersionBackupItemAction ext f w).1 logger w0
        = (⟨none, some e⟩, ⟨s1, w0.calls ++ [Call.failed .ClientConfig]⟩)) ∨
    (∃ cfg e s1 s2, f.ClientConfig w0.state = (.ok cfg, s1) ∧
      ext.NewForConfig cfg s1 = (.error e, s2) ∧
      (newRemapCRDVersionBackupItemAction ext f w).1 logger w0
        = (⟨none, some e⟩,
           ⟨s2, w0.calls ++ [Call.succeeded .ClientConfig, Call.failed .NewForConfig]⟩)) ∨
    (∃ cfg ac s1 s2, f.ClientConfig w0.state = (.ok cfg, s1) ∧
      ext.NewForConfig cfg s1 = (.ok ac, s2) ∧
      (newRemapCRDVersionBackupItemAction ext f w).1 logger w0
        = (⟨some (backup.NewRemapCRDVersionAction logger
              ac.ApiextensionsV1beta1_CustomResourceDefinitions), none⟩,
           ⟨s2, w0.calls ++ [Call.succeeded .ClientConfig, Call.succeeded .NewForConfig]⟩)) := by
  rcases hK : f.ClientConfig w0.state with ⟨rK, s1⟩
  cases rK with
  | error e => exact Or.inl ⟨e, s1, rfl, remapCRD_ClientConfig_fails ext f w w0 logger e s1 hK⟩
  | ok cfg =>
    rcases hN : ext.NewForConfig cfg s1 with ⟨rN, s2⟩
    cases rN with
    | error e =>
      exact Or.inr (Or.inl ⟨cfg, e, s1, s2, rfl, hN,
        remapCRD_NewForConfig_fails ext f w w0 logger cfg e s1 s2 hK hN⟩)
    | ok ac =>
      exact Or.inr (Or.inr ⟨cfg, ac, s1, s2, rfl, hN,
        remapCRD_succeeds ext f w w0 logger cfg ac s1 s2 hK hN⟩)

end InvocationLemmas

/-! ## One invocation of any registered initializer -/

section Outcome

variable {σ : Type}

/-- One invocation of a registered initializer, started in state `s0`, returns a
result `r`, leaves state `s1` and appends calls `tr` to the log, whatever the log
held before. -/
theorem initializer_frame (ext : Externals σ) (f : Factory σ) (w : World σ) (c : PluginConst)
    (logger : Logger) (s0 : σ) :
    ∃ r s1 tr, (∀ t, c.initializer ext f w logger ⟨s0, t⟩ = (r, ⟨s1, t ++ tr⟩)) ∧
      ExactlyOne r ∧ FailStop r tr ∧ NamespacesFrom f r := by
  cases c
  case ServiceAccountBackupPlugin =>
    rcases serviceAccount_paths ext f w ⟨s0, []⟩ logger with
      ⟨e, s1, hK, _⟩ | ⟨c, e, s1, s2, hK, hH, _⟩ | ⟨c, d, e, s1, s2, s3, hK, hH, hA, _⟩ |
      ⟨c, d, a, s1, s2, s3, hK, hH, hA, _⟩
    · exact ⟨_, _, _, fun t => serviceAccount_KubeClient_fails ext f w ⟨s0, t⟩ logger e s1 hK,
        by simp [ExactlyOne], by simp [FailStop, callsTo, Call.failed],
        by simp [NamespacesFrom]⟩
    · exact ⟨_, _, _,
        fun t => serviceAccount_NewHelper_fails ext f w ⟨s0, t⟩ logger c e s1 s2 hK hH,
        by simp [ExactlyOne], by simp [FailStop, callsTo, Call.failed, Call.succeeded],
        by simp [NamespacesFrom]⟩
    · exact ⟨_, _, _,
        fun t => serviceAccount_NewServiceAccountAction_fails ext f w ⟨s0, t⟩ logger c d e
          s1 s2 s3 hK hH hA,
        by simp [ExactlyOne], by simp [FailStop, callsTo, Call.failed, Call.succeeded],
        by simp [NamespacesFrom]⟩
    · exact ⟨_, _, _,
        fun t => serviceAccount_succeeds ext f w ⟨s0, t⟩ logger c d a s1 s2 s3 hK hH hA,
        by simp [ExactlyOne], by simp [FailStop, callsTo, Call.succeeded],
        by simp [NamespacesFrom, Handler.namespaces]⟩
  case RemapCRDVersionBackupPlugin =>
    rcases remapCRD_paths ext f w ⟨s0, []⟩ logger with
      ⟨e, s1, hK, _⟩ | ⟨cfg, e, s1, s2, hK, hN, _⟩ | ⟨cfg, ac, s1, s2, hK, hN, _⟩
    · exact ⟨_, _, _, fun t => remapCRD_ClientConfig_fails ext f w ⟨s0, t⟩ logger e s1 hK,
        by simp [ExactlyOne], by simp [FailStop, callsTo, Call.failed],
        by simp [NamespacesFrom]⟩
    · exact ⟨_, _, _,
        fun t => remapCRD_NewForConfig_fails ext f w ⟨s0, t⟩ logger cfg e s1 s2 hK hN,
        by simp [ExactlyOne], by simp [FailStop, callsTo, Call.failed, Call.succeeded],
        by simp [NamespacesFrom]⟩
    · exact ⟨_, _, _,
        fun t => remapCRD_succeeds ext f w ⟨s0, t⟩ logger cfg ac s1 s2 hK hN,
        by simp [ExactlyOne], by simp [FailStop, callsTo, Call.succeeded],
        by simp [NamespacesFrom, Handler.namespaces, backup.NewRemapCRDVersionAction]⟩
  case ResticRestorePlugin =>
    rcases restic_paths f w ⟨s0, []⟩ logger with
      ⟨e, s1, hK, _⟩ | ⟨c, e, s1, s2, hK, hC, _⟩ | ⟨c, vc, s1, s2, hK, hC, _⟩
    · exact ⟨_, _, _, fun t => restic_KubeClient_fails f w ⟨s0, t⟩ logger e s1 hK,
        by simp [ExactlyOne], by simp [FailStop, callsTo, Call.failed],
        by simp [NamespacesFrom]⟩
    · exact ⟨_, _, _, fun t => restic_Client_fails f w ⟨s0, t⟩ logger c e s1 s2 hK hC,
        by simp [ExactlyOne], by simp [FailStop, callsTo, Call.failed, Call.succeeded],
        by simp [NamespacesFrom]⟩
    · refine ⟨_, _, _, fun t => restic_succeeds f w ⟨s0, t⟩ logger c vc s1 s2 hK hC,
        by simp [ExactlyOne], by simp [FailStop, callsTo, Call.succeeded], ?_⟩
      intro h hh n hn
      simp only [Option.some.injEq] at hh
      subst hh
      simp only [restore.NewResticRestoreAction, Handler.namespaces,
        Clientset.CoreV1_ConfigMaps, VeleroClientset.VeleroV1_PodVolumeBackups,
        List.mem_cons, List.mem_singleton, List.not_mem_nil, or_false] at hn
      rcases hn with hn | hn
      · exact ⟨_, hn⟩
      · exact ⟨_, hn⟩
  case ChangeStorageClassRestorePlugin =>
    rcases changeStorageClass_paths f w ⟨s0, []⟩ logger with
      ⟨e, s1, hK, _⟩ | ⟨c, s1, hK, _⟩
    · exact ⟨_, _, _, fun t => changeStorageClass_KubeClient_fails f w ⟨s0, t⟩ logger e s1 hK,
        by simp [ExactlyOne], by simp [FailStop, callsTo, Call.failed],
        by simp [NamespacesFrom]⟩
    · refine ⟨_, _, _, fun t => changeStorageClass_succeeds f w ⟨s0, t⟩ logger c s1 hK,
        by simp [ExactlyOne], by simp [FailStop, callsTo, Call.succeeded], ?_⟩
      intro h hh n hn
      simp only [Option.some.injEq] at hh
      subst hh
      simp only [restore.NewChangeStorageClassAction, Handler.namespaces,
        Clientset.CoreV1_ConfigMaps, List.mem_singleton] at hn
      exact ⟨_, hn⟩
  case ChangePVCNodeSelectorPlugin =>
    rcases changePVCNodeSelector_paths f w ⟨s0, []⟩ logger with
      ⟨e, s1, hK, _⟩ | ⟨c, s1, hK, _⟩
    · exact ⟨_, _, _,
        fun t => changePVCNodeSelector_KubeClient_fails f w ⟨s0, t⟩ logger e s1 hK,
        by simp [ExactlyOne], by simp [FailStop, callsTo, Call.failed],
        by simp [NamespacesFrom]⟩
    · refine ⟨_, _, _, fun t => changePVCNodeSelector_succeeds f w ⟨s0, t⟩ logger c s1 hK,
        by simp [ExactlyOne], by simp [FailStop, callsTo, Call.succeeded], ?_⟩
      intro h hh n hn
      simp only [Option.some.injEq] at hh
      subst hh
      simp only [restore.NewChangePVCNodeSelectorAction, Handler.namespaces,
        Clientset.CoreV1_ConfigMaps, List.mem_singleton] at hn
      exact ⟨_, hn⟩
  all_goals
    refine ⟨⟨some ?_, none⟩, s0, [], fun t => ?_, ?_, ?_, ?_⟩
    pick_goal 2
    · rw [List.append_nil]
      exact rfl
    · simp [ExactlyOne]
    · simp [FailStop, callsTo]
    · intro h hh n hn
      simp only [Option.some.injEq] at hh
      subst hh
      cases hn

/-- The two duplicate policies do differ once two names of one category collide:
with every constant set to one value, rejecting aborts the assembly at the second
registration, and replacing ends with one entry per category. -/
theorem colliding_names_separate_the_policies (ext : Externals σ) (f : Factory σ)
    (w : World σ) :
    (NewCommand.Run .reject ext (fun _ => "velero.io/same") f w).1
      = .error (.RegistrationConflict .BackupItemAction "velero.io/same") ∧
    ∃ reg, (NewCommand.Run .replace ext (fun _ => "velero.io/same") f w).1 = .ok reg ∧
      reg.keys = [(.BackupItemAction, "velero.io/same"),
        (.RestoreItemAction, "velero.io/same")] := by
  refine ⟨?_, ?_⟩
  · simp [NewCommand.Run, NewServer, Server.RegisterBackupItemAction,
      Server.RegisterRestoreItemAction, ActionRegistry.register, ActionRegistry.hasKey,
      ActionDescriptor.key]
  · simp [NewCommand.Run, NewServer, Server.RegisterBackupItemAction,
      Server.RegisterRestoreItemAction, ActionRegistry.register, ActionRegistry.hasKey,
      ActionDescriptor.key, ActionRegistry.keys]

/-- On the registration chain of `NewCommand`, the keys are pairwise different
exactly when distinct name constants of one category have distinct values: no
constant is registered twice, so a duplicate key can only come from two constants
of one category that share a value. -/
theorem registrations_keys_nodup_iff (ext : Externals σ) (names : PluginConst → String)
    (f : Factory σ) (w : World σ) :
    ((registrations ext names f w).map (fun d => d.key)).Nodup ↔ NamesDistinct names := by
  refine ⟨fun hn a b hc hv => ?_, registrations_keys_nodup ext names f w⟩
  rw [registrations_keys] at hn
  have ha : a ∈ registrationOrder := by cases a <;> decide
  have hb : b ∈ registrationOrder := by cases b <;> decide
  exact List.inj_on_of_nodup_map hn ha hb (Prod.ext hc hv)

theorem sampleNames_distinct : NamesDistinct sampleNames := by
  intro a b hc hn
  cases a <;> cases b <;>
    first | rfl | (exact absurd hc (by decide)) | (exact absurd hn (by decide))

end Outcome

/-! ## The claims -/

section Claims

variable {σ : Type}

/-- C1: every initializer that needs only a logger succeeds for every logger: it
returns the handler built by its action constructor together with a nil error,
and it leaves the world, call log included, as it found it, so no client
factory is consulted. -/
theorem C1_dependency_free_initializers_succeed (logger : Logger) (w : World σ) :
    newPVBackupItemAction logger w = (⟨some (backup.NewPVCAction logger), none⟩, w) ∧
    newPodBackupItemAction logger w = (⟨some (backup.NewPodAction logger), none⟩, w) ∧
    newJobRestoreItemAction logger w = (⟨some (restore.NewJobAction logger), none⟩, w) ∧
    newPodRestoreItemAction logger w = (⟨some (restore.NewPodAction logger), none⟩, w) ∧
    newInitRestoreHookPodAction logger w
      = (⟨some (restore.NewInitRestoreHookPodAction logger), none⟩, w) ∧
    newServiceRestoreItemAction logger w
      = (⟨some (restore.NewServiceAction logger), none⟩, w) ∧
    newServiceAccountRestoreItemAction logger w
      = (⟨some (restore.NewServiceAccountAction logger), none⟩, w) ∧
    newAddPVCFromPodRestoreItemAction logger w
      = (⟨some (restore.NewAddPVCFromPodAction logger), none⟩, w) ∧
    newAddPVFromPVCRestoreItemAction logger w
      = (⟨some (restore.NewAddPVFromPVCAction logger), none⟩, w) ∧
    newCRDV1PreserveUnknownFieldsRestoreItemAction logger w
      = (⟨some (restore.NewCRDV1PreserveUnknownFieldsAction logger), none⟩, w) ∧
    newRoleBindingItemAction logger w
      = (⟨some (restore.NewRoleBindingAction logger), none⟩, w) ∧
    newClusterRoleBindingRestoreItemAction logger w
      = (⟨some (restore.NewClusterRoleBindingAction logger), none⟩, w) ∧
    newAPIServiceRestoreItemAction logger w
      = (⟨some (restore.NewAPIServiceAction logger), none⟩, w) :=
  ⟨rfl, rfl, rfl, rfl, rfl, rfl, rfl, rfl, rfl, rfl, rfl, rfl, rfl⟩

/-- C2: when the accessor an initializer consults first fails with error `e`
(`f.KubeClient` for the service-account backup, restic restore,
change-storage-class and change-PVC-node-selector initializers, `f.ClientConfig`
for the remap-CRD-version initializer), the initializer returns a nil handler and
exactly `e`, for every logger; so an error whose message is "connection refused"
is reported with a message containing "connection refused". -/
theorem C2_first_accessor_error_returned_unchanged (ext : Externals σ) (f : Factory σ)
    (w w0 : World σ) (logger : Logger) (e : GoError) :
    ((f.KubeClient w0.state).1 = .error e →
      ((newServiceAccountBackupItemAction ext f w).1 logger w0).1 = ⟨none, some e⟩ ∧
      ((newResticRestoreItemAction f w).1 logger w0).1 = ⟨none, some e⟩ ∧
      ((newChangeStorageClassRestoreItemAction f w).1 logger w0).1 = ⟨none, some e⟩ ∧
      ((newChangePVCNodeSelectorItemAction f w).1 logger w0).1 = ⟨none, some e⟩ ∧
      (e.message = "connection refused" →
        ((newServiceAccountBackupItemAction ext f w).1 logger w0).1.reports
          "connection refused" ∧
        ((newResticRestoreItemAction f w).1 logger w0).1.reports "connection refused" ∧
        ((newChangeStorageClassRestoreItemAction f w).1 logger w0).1.reports
          "connection refused" ∧
        ((newChangePVCNodeSelectorItemAction f w).1 logger w0).1.reports
          "connection refused")) ∧
    ((f.ClientConfig w0.state).1 = .error e →
      ((newRemapCRDVersionBackupItemAction ext f w).1 logger w0).1 = ⟨none, some e⟩ ∧
      (e.message = "connection refused" →
        ((newRemapCRDVersionBackupItemAction ext f w).1 logger w0).1.reports
          "connection refused")) := by
  have hrep : e.message = "connection refused" →
      (InitResult.mk none (some e)).reports "connection refused" := by
    intro hm
    exact ⟨e, rfl, by rw [hm]⟩
  constructor
  · intro h
    have hK : f.KubeClient w0.state = (.error e, (f.KubeClient w0.state).2) := by
      rw [← h]
    have h1 := serviceAccount_KubeClient_fails ext f w w0 logger e _ hK
    have h2 := restic_KubeClient_fails f w w0 logger e _ hK
    have h3 := changeStorageClass_KubeClient_fails f w w0 logger e _ hK
    have h4 := changePVCNodeSelector_KubeClient_fails f w w0 logger e _ hK
    rw [h1, h2, h3, h4]
    exact ⟨rfl, rfl, rfl, rfl, fun hm => ⟨hrep hm, hrep hm, hrep hm, hrep hm⟩⟩
  · intro h
    have hK : f.ClientConfig w0.state = (.error e, (f.ClientConfig w0.state).2) := by
      rw [← h]
    rw [remapCRD_ClientConfig_fails ext f w w0 logger e _ hK]
    exact ⟨rfl, hrep⟩

/-- Witness for C2: a factory whose accessors all fail with "connection refused". -/
theorem C2_first_accessor_error_returned_unchanged_witness :
    ((newServiceAccountBackupItemAction healthyExternals (refusingFactory "connection refused")
        freshWorld).1 sampleLogger freshWorld).1 = ⟨none, some ⟨"connection refused"⟩⟩ ∧
    ((newRemapCRDVersionBackupItemAction healthyExternals
        (refusingFactory "connection refused") freshWorld).1 sampleLogger freshWorld).1.reports
      "connection refused" :=
  ⟨((C2_first_accessor_error_returned_unchanged healthyExternals
      (refusingFactory "connection refused") freshWorld freshWorld sampleLogger
      ⟨"connection refused"⟩).1 rfl).1,
   ((C2_first_accessor_error_returned_unchanged healthyExternals
      (refusingFactory "connection refused") freshWorld freshWorld sampleLogger
      ⟨"connection refused"⟩).2 rfl).2 rfl⟩

/-- C3, as stated, fails: the restic restore initializer is run once with a
factory whose `KubeClient` fails and once with a factory whose `Client` fails,
both with "connection refused". The two invocations fail at different
capabilities (the call logs differ) and return the same error, whose message is
the bare "connection refused": it contains the name of no accessor, so nothing in
it tells which capability failed. -/
theorem C3_counterexample :
    (newResticRestoreItemAction (refusingFactory "connection refused") freshWorld).1
        sampleLogger freshWorld
      = (⟨none, some ⟨"connection refused"⟩⟩, ⟨1, [Call.failed .KubeClient]⟩) ∧
    (newResticRestoreItemAction (veleroClientRefusingFactory "connection refused")
        freshWorld).1 sampleLogger freshWorld
      = (⟨none, some ⟨"connection refused"⟩⟩,
         ⟨2, [Call.succeeded .KubeClient, Call.failed .Client]⟩) ∧
    ¬ ("KubeClient".toList <:+: "connection refused".toList) ∧
    ¬ ("Client".toList <:+: "connection refused".toList) ∧
    ¬ ∃ capabilityNamed : String → Call,
        ∀ (f : Factory Nat) (c : Call) (e : GoError),
          ((newResticRestoreItemAction f freshWorld).1 sampleLogger freshWorld).2.calls.getLast?
              = some (Call.failed c) →
          ((newResticRestoreItemAction f freshWorld).1 sampleLogger freshWorld).1.err
              = some e →
          capabilityNamed e.message = c := by
  refine ⟨by decide, by decide, by decide, by decide, ?_⟩
  rintro ⟨named, h⟩
  have h1 := h (refusingFactory "connection refused") .KubeClient ⟨"connection refused"⟩
    (by decide) (by decide)
  have h2 := h (veleroClientRefusingFactory "connection refused") .Client
    ⟨"connection refused"⟩ (by decide) (by decide)
  rw [h1] at h2
  exact absurd h2 (by decide)

/-- C3, amended: whichever step of a factory-capturing initializer fails, be it
a factory accessor (`f.KubeClient`, `f.Client`, `f.ClientConfig`) or a constructor
fed from it (`NewHelper`, `NewServiceAccountAction`, `NewForConfig`), the
initializer produces no handler and the message of the error it returns is the
message of that step's error, with nothing added by the initializer. Conversely
every error a registered initializer returns is the error of the call that
failed last in that invocation. -/
theorem C3_provider_error_message_passed_through (ext : Externals σ) (f : Factory σ)
    (w w0 : World σ) (logger : Logger) (e : GoError) :
    (∀ s1, f.KubeClient w0.state = (.error e, s1) →
      ∀ k ∈ [PluginConst.ServiceAccountBackupPlugin, .ResticRestorePlugin,
          .ChangeStorageClassRestorePlugin, .ChangePVCNodeSelectorPlugin],
        (k.initializer ext f w logger w0).1.handler = none ∧
        (k.initializer ext f w logger w0).1.errorMessage = some e.message) ∧
    (∀ c s1 s2, f.KubeClient w0.state = (.ok c, s1) → f.Client s1 = (.error e, s2) →
      ((newResticRestoreItemAction f w).1 logger w0).1.handler = none ∧
      ((newResticRestoreItemAction f w).1 logger w0).1.errorMessage = some e.message) ∧
    (∀ s1, f.ClientConfig w0.state = (.error e, s1) →
      ((newRemapCRDVersionBackupItemAction ext f w).1 logger w0).1.handler = none ∧
      ((newRemapCRDVersionBackupItemAction ext f w).1 logger w0).1.errorMessage
        = some e.message) ∧
    (∀ c s1 s2, f.KubeClient w0.state = (.ok c, s1) →
      ext.NewHelper c.Discovery logger s1 = (.error e, s2) →
      ((newServiceAccountBackupItemAction ext f w).1 logger w0).1.handler = none ∧
      ((newServiceAccountBackupItemAction ext f w).1 logger w0).1.errorMessage
        = some e.message) ∧
    (∀ c d s1 s2 s3, f.KubeClient w0.state = (.ok c, s1) →
      ext.NewHelper c.Discovery logger s1 = (.ok d, s2) →
      ext.NewServiceAccountAction logger (backup.NewClusterRoleBindingListerMap c) d s2
        = (.error e, s3) →
      ((newServiceAccountBackupItemAction ext f w).1 logger w0).1.handler = none ∧
      ((newServiceAccountBackupItemAction ext f w).1 logger w0).1.errorMessage
        = some e.message) ∧
    (∀ cfg s1 s2, f.ClientConfig w0.state = (.ok cfg, s1) →
      ext.NewForConfig cfg s1 = (.error e, s2) →
      ((newRemapCRDVersionBackupItemAction ext f w).1 logger w0).1.handler = none ∧
      ((newRemapCRDVersionBackupItemAction ext f w).1 logger w0).1.errorMessage
        = some e.message) ∧
    (∀ k : PluginConst, (k.initializer ext f w logger w0).1.err = some e →
      (k.initializer ext f w logger w0).1.handler = none ∧
      ∃ ev tr, (k.initializer ext f w logger w0).2.calls = w0.calls ++ (tr ++ [ev]) ∧
        ev.ok = false ∧
        ((ev.call = .KubeClient ∧ ∃ s, (f.KubeClient s).1 = .error e) ∨
         (ev.call = .Client ∧ ∃ s, (f.Client s).1 = .error e) ∨
         (ev.call = .ClientConfig ∧ ∃ s, (f.ClientConfig s).1 = .error e) ∨
         (ev.call = .NewHelper ∧ ∃ d s, (ext.NewHelper d logger s).1 = .error e) ∨
         (ev.call = .NewServiceAccountAction ∧
            ∃ m d s, (ext.NewServiceAccountAction logger m d s).1 = .error e) ∨
         (ev.call = .NewForConfig ∧ ∃ cfg s, (ext.NewForConfig cfg s).1 = .error e))) := by
  refine ⟨?_, ?_, ?_, ?_, ?_, ?_, ?_⟩
  · intro s1 hK k hk
    simp only [List.mem_cons, List.mem_singleton, List.not_mem_nil, or_false] at hk
    rcases hk with rfl | rfl | rfl | rfl
    · simp only [PluginConst.initializer]
      rw [serviceAccount_KubeClient_fails ext f w w0 logger e s1 hK]
      exact ⟨rfl, rfl⟩
    · simp only [PluginConst.initializer]
      rw [restic_KubeClient_fails f w w0 logger e s1 hK]
      exact ⟨rfl, rfl⟩
    · simp only [PluginConst.initializer]
      rw [changeStorageClass_KubeClient_fails f w w0 logger e s1 hK]
      exact ⟨rfl, rfl⟩
    · simp only [PluginConst.initializer]
      rw [changePVCNodeSelector_KubeClient_fails f w w0 logger e s1 hK]
      exact ⟨rfl, rfl⟩
  · intro c s1 s2 hK hC
    rw [restic_Client_fails f w w0 logger c e s1 s2 hK hC]
    exact ⟨rfl, rfl⟩
  · intro s1 hK
    rw [remapCRD_ClientConfig_fails ext f w w0 logger e s1 hK]
    exact ⟨rfl, rfl⟩
  · intro c s1 s2 hK hH
    rw [serviceAccount_NewHelper_fails ext f w w0 logger c e s1 s2 hK hH]
    exact ⟨rfl, rfl⟩
  · intro c d s1 s2 s3 hK hH hA
    rw [serviceAccount_NewServiceAccountAction_fails ext f w w0 logger c d e s1 s2 s3 hK hH hA]
    exact ⟨rfl, rfl⟩
  · intro cfg s1 s2 hK hN
    rw [remapCRD_NewForConfig_fails ext f w w0 logger cfg e s1 s2 hK hN]
    exact ⟨rfl, rfl⟩
  intro k h
  cases k
  case ServiceAccountBackupPlugin =>
    simp only [PluginConst.initializer] at h ⊢
    rcases serviceAccount_paths ext f w w0 logger with
      ⟨e1, s1, hK, hr⟩ | ⟨c, e1, s1, s2, hK, hH, hr⟩ |
      ⟨c, d, e1, s1, s2, s3, hK, hH, hA, hr⟩ | ⟨c, d, a, s1, s2, s3, hK, hH, hA, hr⟩
    · rw [hr] at h ⊢
      simp only [Option.some.injEq] at h
      subst h
      exact ⟨rfl, Call.failed .KubeClient, [], rfl, rfl, Or.inl ⟨rfl, _, by rw [hK]⟩⟩
    · rw [hr] at h ⊢
      simp only [Option.some.injEq] at h
      subst h
      exact ⟨rfl, Call.failed .NewHelper, [_], rfl, rfl,
        Or.inr (Or.inr (Or.inr (Or.inl ⟨rfl, _, _, by rw [hH]⟩)))⟩
    · rw [hr] at h ⊢
      simp only [Option.some.injEq] at h
      subst h
      exact ⟨rfl, Call.failed .NewServiceAccountAction, [_, _], rfl, rfl,
        Or.inr (Or.inr (Or.inr (Or.inr (Or.inl ⟨rfl, _, _, _, by rw [hA]⟩))))⟩
    · rw [hr] at h
      cases h
  case RemapCRDVersionBackupPlugin =>
    simp only [PluginConst.initializer] at h ⊢
    rcases remapCRD_paths ext f w w0 logger with
      ⟨e1, s1, hK, hr⟩ | ⟨cfg, e1, s1, s2, hK, hN, hr⟩ | ⟨cfg, ac, s1, s2, hK, hN, hr⟩
    · rw [hr] at h ⊢
      simp only [Option.some.injEq] at h
      subst h
      exact ⟨rfl, Call.failed .ClientConfig, [], rfl, rfl,
        Or.inr (Or.inr (Or.inl ⟨rfl, _, by rw [hK]⟩))⟩
    · rw [hr] at h ⊢
      simp only [Option.some.injEq] at h
      subst h
      exact ⟨rfl, Call.failed .NewForConfig, [_], rfl, rfl,
        Or.inr (Or.inr (Or.inr (Or.inr (Or.inr ⟨rfl, _, _, by rw [hN]⟩))))⟩
    · rw [hr] at h
      cases h
  case ResticRestorePlugin =>
    simp only [PluginConst.initializer] at h ⊢
    rcases restic_paths f w w0 logger with
      ⟨e1, s1, hK, hr⟩ | ⟨c, e1, s1, s2, hK, hC, hr⟩ | ⟨c, vc, s1, s2, hK, hC, hr⟩
    · rw [hr] at h ⊢
      simp only [Option.some.injEq] at h
      subst h
      exact ⟨rfl, Call.failed .KubeClient, [], rfl, rfl, Or.inl ⟨rfl, _, by rw [hK]⟩⟩
    · rw [hr] at h ⊢
      simp only [Option.some.injEq] at h
      subst h
      exact ⟨rfl, Call.failed .Client, [_], rfl, rfl, Or.inr (Or.inl ⟨rfl, _, by rw [hC]⟩)⟩
    · rw [hr] at h
      cases h
  case ChangeStorageClassRestorePlugin =>
    simp only [PluginConst.initializer] at h ⊢
    rcases changeStorageClass_paths f w w0 logger with ⟨e1, s1, hK, hr⟩ | ⟨c, s1, hK, hr⟩
    · rw [hr] at h ⊢
      simp only [Option.some.injEq] at h
      subst h
      exact ⟨rfl, Call.failed .KubeClient, [], rfl, rfl, Or.inl ⟨rfl, _, by rw [hK]⟩⟩
    · rw [hr] at h
      cases h
  case ChangePVCNodeSelectorPlugin =>
    simp only [PluginConst.initializer] at h ⊢
    rcases changePVCNodeSelector_paths f w w0 logger with ⟨e1, s1, hK, hr⟩ | ⟨c, s1, hK, hr⟩
    · rw [hr] at h ⊢
      simp only [Option.some.injEq] at h
      subst h
      exact ⟨rfl, Call.failed .KubeClient, [], rfl, rfl, Or.inl ⟨rfl, _, by rw [hK]⟩⟩
    · rw [hr] at h
      cases h
  all_goals cases h

/-- Witness for the amended C3: with a factory whose `Client` fails with
"connection refused", the restic restore initializer returns no handler and an
error whose message is "connection refused", nothing more. -/
theorem C3_provider_error_message_passed_through_witness :
    ((newResticRestoreItemAction (veleroClientRefusingFactory "connection refused")
        freshWorld).1 sampleLogger freshWorld).1.handler = none ∧
    ((newResticRestoreItemAction (veleroClientRefusingFactory "connection refused")
        freshWorld).1 sampleLogger freshWorld).1.errorMessage = some "connection refused" :=
  (C3_provider_error_message_passed_through healthyExternals
    (veleroClientRefusingFactory "connection refused") freshWorld freshWorld sampleLogger
    ⟨"connection refused"⟩).2.1 ⟨1⟩ 1 2 rfl rfl

/-- C4: building an initializer from a client factory cannot fail and does not
touch the factory. For every factory, also one whose accessors all fail, each of
the five builders hands back the world it ran in, call log and factory state
untouched, and so does the whole assembly in `NewCommand`; the first call to the
factory (`f.KubeClient`, or `f.ClientConfig` for the remap-CRD-version
initializer) is appended to the log when the returned initializer is invoked. -/
theorem C4_building_an_initializer_touches_nothing (policy : DuplicatePolicy)
    (ext : Externals σ) (names : PluginConst → String) (f : Factory σ) (w : World σ) :
    (newServiceAccountBackupItemAction ext f w).2 = w ∧
    (newRemapCRDVersionBackupItemAction ext f w).2 = w ∧
    (newResticRestoreItemAction f w).2 = w ∧
    (newChangeStorageClassRestoreItemAction f w).2 = w ∧
    (newChangePVCNodeSelectorItemAction f w).2 = w ∧
    (NewCommand.Run policy ext names f w).2 = w ∧
    (∀ (logger : Logger) (w0 : World σ),
      (∃ ev rest, ((newServiceAccountBackupItemAction ext f w).1 logger w0).2.calls
          = w0.calls ++ ev :: rest ∧ ev.call = .KubeClient) ∧
      (∃ ev rest, ((newRemapCRDVersionBackupItemAction ext f w).1 logger w0).2.calls
          = w0.calls ++ ev :: rest ∧ ev.call = .ClientConfig) ∧
      (∃ ev rest, ((newResticRestoreItemAction f w).1 logger w0).2.calls
          = w0.calls ++ ev :: rest ∧ ev.call = .KubeClient) ∧
      (∃ ev rest, ((newChangeStorageClassRestoreItemAction f w).1 logger w0).2.calls
          = w0.calls ++ ev :: rest ∧ ev.call = .KubeClient) ∧
      (∃ ev rest, ((newChangePVCNodeSelectorItemAction f w).1 logger w0).2.calls
          = w0.calls ++ ev :: rest ∧ ev.call = .KubeClient)) := by
  refine ⟨rfl, rfl, rfl, rfl, rfl, rfl, fun logger w0 => ⟨?_, ?_, ?_, ?_, ?_⟩⟩
  · rcases serviceAccount_paths ext f w w0 logger with
      ⟨_, _, _, hr⟩ | ⟨_, _, _, _, _, _, hr⟩ | ⟨_, _, _, _, _, _, _, _, _, hr⟩ |
      ⟨_, _, _, _, _, _, _, _, _, hr⟩ <;>
    exact ⟨_, _, by rw [hr], rfl⟩
  · rcases remapCRD_paths ext f w w0 logger with
      ⟨_, _, _, hr⟩ | ⟨_, _, _, _, _, _, hr⟩ | ⟨_, _, _, _, _, _, hr⟩ <;>
    exact ⟨_, _, by rw [hr], rfl⟩
  · rcases restic_paths f w w0 logger with
      ⟨_, _, _, hr⟩ | ⟨_, _, _, _, _, _, hr⟩ | ⟨_, _, _, _, _, _, hr⟩ <;>
    exact ⟨_, _, by rw [hr], rfl⟩
  · rcases changeStorageClass_paths f w w0 logger with ⟨_, _, _, hr⟩ | ⟨_, _, _, hr⟩ <;>
    exact ⟨_, _, by rw [hr], rfl⟩
  · rcases changePVCNodeSelector_paths f w w0 logger with ⟨_, _, _, hr⟩ | ⟨_, _, _, hr⟩ <;>
    exact ⟨_, _, by rw [hr], rfl⟩

/-- C5: with a factory whose namespace is `ns` and whose clients succeed, the
restic restore initializer builds its handler from the ConfigMaps accessor and
the PodVolumeBackups accessor both scoped to `ns`, and the change-storage-class
and change-PVC-node-selector initializers build theirs from the ConfigMaps
accessor scoped to `ns`; and no handler returned by any initializer built from
that factory is scoped to a namespace other than `ns`. -/
theorem C5_namespace_scoped_to_captured_factory (ext : Externals σ) (f : Factory σ)
    (w w0 : World σ) (logger : Logger) (ns : String) (c : Clientset) (vc : VeleroClientset)
    (s1 s2 : σ) (hNs : ∀ s, (f.Namespace s).1 = ns)
    (hK : f.KubeClient w0.state = (.ok c, s1)) (hC : f.Client s1 = (.ok vc, s2)) :
    ((newResticRestoreItemAction f w).1 logger w0).1
      = ⟨some (restore.NewResticRestoreAction logger (c.CoreV1_ConfigMaps ns)
          (vc.VeleroV1_PodVolumeBackups ns)), none⟩ ∧
    ((newChangeStorageClassRestoreItemAction f w).1 logger w0).1
      = ⟨some (restore.NewChangeStorageClassAction logger (c.CoreV1_ConfigMaps ns)
          c.StorageV1_StorageClasses), none⟩ ∧
    ((newChangePVCNodeSelectorItemAction f w).1 logger w0).1
      = ⟨some (restore.NewChangePVCNodeSelectorAction logger (c.CoreV1_ConfigMaps ns)
          c.CoreV1_Nodes), none⟩ ∧
    (∀ (k : PluginConst) (lg : Logger) (v : World σ) (h : Handler),
      (k.initializer ext f w lg v).1.handler = some h → ∀ n ∈ h.namespaces, n = ns) := by
  refine ⟨?_, ?_, ?_, ?_⟩
  · rw [restic_succeeds f w w0 logger c vc s1 s2 hK hC, hNs, hNs]
  · rw [changeStorageClass_succeeds f w w0 logger c s1 hK, hNs]
  · rw [changePVCNodeSelector_succeeds f w w0 logger c s1 hK, hNs]
  · intro k lg v h hh n hn
    obtain ⟨r, s', tr, hfr, _, _, hscope⟩ := initializer_frame ext f w k lg v.state
    have hv : k.initializer ext f w lg v = (r, ⟨s', v.calls ++ tr⟩) := hfr v.calls
    rw [hv] at hh
    obtain ⟨s, hs⟩ := hscope h hh n hn
    rw [hs, hNs]

/-- Witness for C5: a healthy factory for namespace "ns-a"; no handler is scoped
to "ns-b". -/
theorem C5_namespace_scoped_to_captured_factory_witness :
    ((newResticRestoreItemAction (healthyFactory "ns-a") freshWorld).1 sampleLogger
        freshWorld).1
      = ⟨some (restore.NewResticRestoreAction sampleLogger
          ((Clientset.mk 1).CoreV1_ConfigMaps "ns-a")
          ((VeleroClientset.mk 2).VeleroV1_PodVolumeBackups "ns-a")), none⟩ ∧
    ∀ (k : PluginConst) (lg : Logger) (v : World Nat) (h : Handler),
      (k.initializer healthyExternals (healthyFactory "ns-a") freshWorld lg v).1.handler
        = some h → "ns-b" ∉ h.namespaces :=
  have key := C5_namespace_scoped_to_captured_factory healthyExternals (healthyFactory "ns-a")
    freshWorld freshWorld sampleLogger "ns-a" ⟨1⟩ ⟨2⟩ 1 2 (fun _ => rfl) rfl rfl
  ⟨key.1, fun k lg v h hh hmem => absurd (key.2.2.2 k lg v h hh "ns-b" hmem) (by decide)⟩

/-- C6: when distinct name constants of one category have distinct values, the
assembly in `NewCommand` succeeds under either duplicate policy, and looking up
each registered `(category, name)` pair in the assembled registry returns
exactly the initializer registered for it: the four backup names and the
fourteen restore names resolve to their paired initializers. -/
theorem C6_lookup_returns_registered_initializer (policy : DuplicatePolicy)
    (ext : Externals σ) (names : PluginConst → String) (f : Factory σ) (w : World σ)
    (h : NamesDistinct names) :
    ∃ reg : ActionRegistry σ, (NewCommand.Run policy ext names f w).1 = .ok reg ∧
      reg.lookup .BackupItemAction (names .PVBackupPlugin) = .ok newPVBackupItemAction ∧
      reg.lookup .BackupItemAction (names .PodBackupPlugin) = .ok newPodBackupItemAction ∧
      reg.lookup .BackupItemAction (names .ServiceAccountBackupPlugin)
        = .ok (newServiceAccountBackupItemAction ext f w).1 ∧
      reg.lookup .BackupItemAction (names .RemapCRDVersionBackupPlugin)
        = .ok (newRemapCRDVersionBackupItemAction ext f w).1 ∧
      reg.lookup .RestoreItemAction (names .JobRestorePlugin) = .ok newJobRestoreItemAction ∧
      reg.lookup .RestoreItemAction (names .PodRestorePlugin) = .ok newPodRestoreItemAction ∧
      reg.lookup .RestoreItemAction (names .ResticRestorePlugin)
        = .ok (newResticRestoreItemAction f w).1 ∧
      reg.lookup .RestoreItemAction (names .InitRestoreHookPlugin)
        = .ok newInitRestoreHookPodAction ∧
      reg.lookup .RestoreItemAction (names .ServiceRestorePlugin)
        = .ok newServiceRestoreItemAction ∧
      reg.lookup .RestoreItemAction (names .ServiceAccountRestorePlugin)
        = .ok newServiceAccountRestoreItemAction ∧
      reg.lookup .RestoreItemAction (names .AddPVCFromPodRestorePlugin)
        = .ok newAddPVCFromPodRestoreItemAction ∧
      reg.lookup .RestoreItemAction (names .AddPVFromPVCRestorePlugin)
        = .ok newAddPVFromPVCRestoreItemAction ∧
      reg.lookup .RestoreItemAction (names .ChangeStorageClassRestorePlugin)
        = .ok (newChangeStorageClassRestoreItemAction f w).1 ∧
      reg.lookup .RestoreItemAction (names .RoleBindingItemPlugin)
        = .ok newRoleBindingItemAction ∧
      reg.lookup .RestoreItemAction (names .ClusterRoleBindingRestorePlugin)
        = .ok newClusterRoleBindingRestoreItemAction ∧
      reg.lookup .RestoreItemAction (names .CRDV1PreserveUnknownFieldsRestorePlugin)
        = .ok newCRDV1PreserveUnknownFieldsRestoreItemAction ∧
      reg.lookup .RestoreItemAction (names .ChangePVCNodeSelectorPlugin)
        = .ok (newChangePVCNodeSelectorItemAction f w).1 ∧
      reg.lookup .RestoreItemAction (names .APIServiceRestorePlugin)
        = .ok newAPIServiceRestoreItemAction := by
  have hl := lookup_registered ext names f w h
  refine ⟨⟨registrations ext names f w⟩, by rw [run_ok policy ext names f w h],
    hl .PVBackupPlugin, hl .PodBackupPlugin, hl .ServiceAccountBackupPlugin,
    hl .RemapCRDVersionBackupPlugin, hl .JobRestorePlugin, hl .PodRestorePlugin,
    hl .ResticRestorePlugin, hl .InitRestoreHookPlugin, hl .ServiceRestorePlugin,
    hl .ServiceAccountRestorePlugin, hl .AddPVCFromPodRestorePlugin,
    hl .AddPVFromPVCRestorePlugin, hl .ChangeStorageClassRestorePlugin,
    hl .RoleBindingItemPlugin, hl .ClusterRoleBindingRestorePlugin,
    hl .CRDV1PreserveUnknownFieldsRestorePlugin, hl .ChangePVCNodeSelectorPlugin,
    hl .APIServiceRestorePlugin⟩

/-- Witness for C6: the sample names, where the two pod plugins share a value
across categories; the restore-side pod name resolves to the restore-side
initializer. -/
theorem C6_lookup_returns_registered_initializer_witness :
    ∃ reg : ActionRegistry Nat,
      (NewCommand.Run .reject healthyExternals sampleNames (healthyFactory "ns-a")
        freshWorld).1 = .ok reg ∧
      reg.lookup .RestoreItemAction "velero.io/pod" = .ok newPodRestoreItemAction ∧
      reg.lookup .BackupItemAction "velero.io/pod" = .ok newPodBackupItemAction := by
  obtain ⟨reg, hrun, _, hb, _, _, _, hr, _⟩ :=
    C6_lookup_returns_registered_initializer .reject healthyExternals sampleNames
      (healthyFactory "ns-a") freshWorld sampleNames_distinct
  exact ⟨reg, hrun, hr, hb⟩

/-- C8: no initializer retries or goes on after a failed dependency. In one
invocation of any registered initializer each of `f.KubeClient`, `f.Client` and
`f.ClientConfig` is called at most once, every call but the last succeeded, and
an error is returned exactly when the last call failed. In particular, when
`f.KubeClient` fails, the restic restore initializer calls neither `f.Client` nor
`f.Namespace`, and the service-account backup initializer calls neither
`NewHelper` nor `NewServiceAccountAction`: the failed `f.KubeClient` call is the
only call of the invocation. -/
theorem C8_no_retry_no_step_after_failure (ext : Externals σ) (f : Factory σ)
    (w w0 : World σ) (logger : Logger) :
    (∀ k : PluginConst, ∃ tr,
      (k.initializer ext f w logger w0).2.calls = w0.calls ++ tr ∧
      FailStop (k.initializer ext f w logger w0).1 tr) ∧
    (∀ e, (f.KubeClient w0.state).1 = .error e →
      ((newResticRestoreItemAction f w).1 logger w0).2.calls
        = w0.calls ++ [Call.failed .KubeClient] ∧
      callsTo .Client [Call.failed .KubeClient] = 0 ∧
      callsTo .Namespace [Call.failed .KubeClient] = 0 ∧
      ((newServiceAccountBackupItemAction ext f w).1 logger w0).2.calls
        = w0.calls ++ [Call.failed .KubeClient] ∧
      callsTo .NewHelper [Call.failed .KubeClient] = 0 ∧
      callsTo .NewServiceAccountAction [Call.failed .KubeClient] = 0) := by
  constructor
  · intro k
    obtain ⟨r, s1, tr, hfr, _, hstop, _⟩ := initializer_frame ext f w k logger w0.state
    have hv : k.initializer ext f w logger w0 = (r, ⟨s1, w0.calls ++ tr⟩) := hfr w0.calls
    exact ⟨tr, by rw [hv], by rw [hv]; exact hstop⟩
  · intro e h
    have hK : f.KubeClient w0.state = (.error e, (f.KubeClient w0.state).2) := by
      rw [← h]
    rw [restic_KubeClient_fails f w w0 logger e _ hK,
      serviceAccount_KubeClient_fails ext f w w0 logger e _ hK]
    exact ⟨rfl, by decide, by decide, rfl, by decide, by decide⟩

/-- Witness for C8: a factory whose accessors all fail. -/
theorem C8_no_retry_no_step_after_failure_witness :
    ((newResticRestoreItemAction (refusingFactory "connection refused") freshWorld).1
        sampleLogger freshWorld).2.calls = [Call.failed .KubeClient] ∧
    ((newServiceAccountBackupItemAction healthyExternals
        (refusingFactory "connection refused") freshWorld).1 sampleLogger freshWorld).2.calls
      = [Call.failed .KubeClient] :=
  have key := (C8_no_retry_no_step_after_failure healthyExternals
    (refusingFactory "connection refused") freshWorld freshWorld sampleLogger).2
    ⟨"connection refused"⟩ rfl
  ⟨key.1, key.2.2.2.1⟩

/-- C9: a factory-capturing initializer returns a handler exactly when every one
of its resolution steps succeeds, and otherwise a nil handler with the error of
the first failing step, unchanged. The steps are `f.KubeClient` then `f.Client`
for the restic restore initializer; `f.KubeClient`, `NewHelper`, then
`NewServiceAccountAction` for the service-account backup initializer;
`f.ClientConfig` then `NewForConfig` for the remap-CRD-version initializer;
`f.KubeClient` alone for the change-storage-class and change-PVC-node-selector
initializers. No registered initializer returns a handler together with an
error. -/
theorem C9_handler_iff_all_steps_succeed (ext : Externals σ) (f : Factory σ)
    (w w0 : World σ) (logger : Logger) :
    -- restic restore
    ((∀ e s1, f.KubeClient w0.state = (.error e, s1) →
        ((newResticRestoreItemAction f w).1 logger w0).1 = ⟨none, some e⟩) ∧
     (∀ c e s1 s2, f.KubeClient w0.state = (.ok c, s1) → f.Client s1 = (.error e, s2) →
        ((newResticRestoreItemAction f w).1 logger w0).1 = ⟨none, some e⟩) ∧
     (((newResticRestoreItemAction f w).1 logger w0).1.handler.isSome = true ↔
        ∃ c vc s1 s2, f.KubeClient w0.state = (.ok c, s1) ∧ f.Client s1 = (.ok vc, s2))) ∧
    -- service-account backup
    ((∀ e s1, f.KubeClient w0.state = (.error e, s1) →
        ((newServiceAccountBackupItemAction ext f w).1 logger w0).1 = ⟨none, some e⟩) ∧
     (∀ c e s1 s2, f.KubeClient w0.state = (.ok c, s1) →
        ext.NewHelper c.Discovery logger s1 = (.error e, s2) →
        ((newServiceAccountBackupItemAction ext f w).1 logger w0).1 = ⟨none, some e⟩) ∧
     (∀ c d e s1 s2 s3, f.KubeClient w0.state = (.ok c, s1) →
        ext.NewHelper c.Discovery logger s1 = (.ok d, s2) →
        ext.NewServiceAccountAction logger (backup.NewClusterRoleBindingListerMap c) d s2
          = (.error e, s3) →
        ((newServiceAccountBackupItemAction ext f w).1 logger w0).1 = ⟨none, some e⟩) ∧
     (((newServiceAccountBackupItemAction ext f w).1 logger w0).1.handler.isSome = true ↔
        ∃ c d a s1 s2 s3, f.KubeClient w0.state = (.ok c, s1) ∧
          ext.NewHelper c.Discovery logger s1 = (.ok d, s2) ∧
          ext.NewServiceAccountAction logger (backup.NewClusterRoleBindingListerMap c) d s2
            = (.ok a, s3))) ∧
    -- remap CRD version
    ((∀ e s1, f.ClientConfig w0.state = (.error e, s1) →
        ((newRemapCRDVersionBackupItemAction ext f w).1 logger w0).1 = ⟨none, some e⟩) ∧
     (∀ cfg e s1 s2, f.ClientConfig w0.state = (.ok cfg, s1) →
        ext.NewForConfig cfg s1 = (.error e, s2) →
        ((newRemapCRDVersionBackupItemAction ext f w).1 logger w0).1 = ⟨none, some e⟩) ∧
     (((newRemapCRDVersionBackupItemAction ext f w).1 logger w0).1.handler.isSome = true ↔
        ∃ cfg ac s1 s2, f.ClientConfig w0.state = (.ok cfg, s1) ∧
          ext.NewForConfig cfg s1 = (.ok ac, s2))) ∧
    -- change storage class, change PVC node selector
    ((∀ e s1, f.KubeClient w0.state = (.error e, s1) →
        ((newChangeStorageClassRestoreItemAction f w).1 logger w0).1 = ⟨none, some e⟩ ∧
        ((newChangePVCNodeSelectorItemAction f w).1 logger w0).1 = ⟨none, some e⟩) ∧
     (((newChangeStorageClassRestoreItemAction f w).1 logger w0).1.handler.isSome = true ↔
        ∃ c s1, f.KubeClient w0.state = (.ok c, s1)) ∧
     (((newChangePVCNodeSelectorItemAction f w).1 logger w0).1.handler.isSome = true ↔
        ∃ c s1, f.KubeClient w0.state = (.ok c, s1))) ∧
    -- never both
    (∀ k : PluginConst,
      ¬ ((k.initializer ext f w logger w0).1.handler.isSome = true ∧
         (k.initializer ext f w logger w0).1.err.isSome = true)) := by
  refine ⟨⟨?_, ?_, ?_⟩, ⟨?_, ?_, ?_, ?_⟩, ⟨?_, ?_, ?_⟩, ⟨?_, ?_, ?_⟩, ?_⟩
  · intro e s1 hK
    rw [restic_KubeClient_fails f w w0 logger e s1 hK]
  · intro c e s1 s2 hK hC
    rw [restic_Client_fails f w w0 logger c e s1 s2 hK hC]
  · rcases restic_paths f w w0 logger with
      ⟨e, s1, hK, hr⟩ | ⟨c, e, s1, s2, hK, hC, hr⟩ | ⟨c, vc, s1, s2, hK, hC, hr⟩
    · rw [hr]
      refine ⟨fun h => by simp at h, ?_⟩
      rintro ⟨c', vc', t1, t2, hK', _⟩
      rw [hK] at hK'
      cases hK'
    · rw [hr]
      refine ⟨fun h => by simp at h, ?_⟩
      rintro ⟨c', vc', t1, t2, hK', hC'⟩
      rw [hK] at hK'
      cases hK'
      rw [hC] at hC'
      cases hC'
    · rw [hr]
      exact ⟨fun _ => ⟨c, vc, s1, s2, hK, hC⟩, fun _ => rfl⟩
  · intro e s1 hK
    rw [serviceAccount_KubeClient_fails ext f w w0 logger e s1 hK]
  · intro c e s1 s2 hK hH
    rw [serviceAccount_NewHelper_fails ext f w w0 logger c e s1 s2 hK hH]
  · intro c d e s1 s2 s3 hK hH hA
    rw [serviceAccount_NewServiceAccountAction_fails ext f w w0 logger c d e s1 s2 s3 hK hH hA]
  · rcases serviceAccount_paths ext f w w0 logger with
      ⟨e, s1, hK, hr⟩ | ⟨c, e, s1, s2, hK, hH, hr⟩ | ⟨c, d, e, s1, s2, s3, hK, hH, hA, hr⟩ |
      ⟨c, d, a, s1, s2, s3, hK, hH, hA, hr⟩
    · rw [hr]
      refine ⟨fun h => by simp at h, ?_⟩
      rintro ⟨c', d', a', t1, t2, t3, hK', _, _⟩
      rw [hK] at hK'
      cases hK'
    · rw [hr]
      refine ⟨fun h => by simp at h, ?_⟩
      rintro ⟨c', d', a', t1, t2, t3, hK', hH', _⟩
      rw [hK] at hK'
      cases hK'
      rw [hH] at hH'
      cases hH'
    · rw [hr]
      refine ⟨fun h => by simp at h, ?_⟩
      rintro ⟨c', d', a', t1, t2, t3, hK', hH', hA'⟩
      rw [hK] at hK'
      cases hK'
      rw [hH] at hH'
      cases hH'
      rw [hA] at hA'
      cases hA'
    · rw [hr]
      exact ⟨fun _ => ⟨c, d, a, s1, s2, s3, hK, hH, hA⟩, fun _ => rfl⟩
  · intro e s1 hK
    rw [remapCRD_ClientConfig_fails ext f w w0 logger e s1 hK]
  · intro cfg e s1 s2 hK hN
    rw [remapCRD_NewForConfig_fails ext f w w0 logger cfg e s1 s2 hK hN]
  · rcases remapCRD_paths ext f w w0 logger with
      ⟨e, s1, hK, hr⟩ | ⟨cfg, e, s1, s2, hK, hN, hr⟩ | ⟨cfg, ac, s1, s2, hK, hN, hr⟩
    · rw [hr]
      refine ⟨fun h => by simp at h, ?_⟩
      rintro ⟨cfg', ac', t1, t2, hK', _⟩
      rw [hK] at hK'
      cases hK'
    · rw [hr]
      refine ⟨fun h => by simp at h, ?_⟩
      rintro ⟨cfg', ac', t1, t2, hK', hN'⟩
      rw [hK] at hK'
      cases hK'
      rw [hN] at hN'
      cases hN'
    · rw [hr]
      exact ⟨fun _ => ⟨cfg, ac, s1, s2, hK, hN⟩, fun _ => rfl⟩
  · intro e s1 hK
    rw [changeStorageClass_KubeClient_fails f w w0 logger e s1 hK,
      changePVCNodeSelector_KubeClient_fails f w w0 logger e s1 hK]
    exact ⟨rfl, rfl⟩
  · rcases changeStorageClass_paths f w w0 logger with ⟨e, s1, hK, hr⟩ | ⟨c, s1, hK, hr⟩
    · rw [hr]
      refine ⟨fun h => by simp at h, ?_⟩
      rintro ⟨c', t1, hK'⟩
      rw [hK] at hK'
      cases hK'
    · rw [hr]
      exact ⟨fun _ => ⟨c, s1, hK⟩, fun _ => rfl⟩
  · rcases changePVCNodeSelector_paths f w w0 logger with ⟨e, s1, hK, hr⟩ | ⟨c, s1, hK, hr⟩
    · rw [hr]
      refine ⟨fun h => by simp at h, ?_⟩
      rintro ⟨c', t1, hK'⟩
      rw [hK] at hK'
      cases hK'
    · rw [hr]
      exact ⟨fun _ => ⟨c, s1, hK⟩, fun _ => rfl⟩
  · intro k
    obtain ⟨r, s1, tr, hfr, hone, _, _⟩ := initializer_frame ext f w k logger w0.state
    have hv : k.initializer ext f w logger w0 = (r, ⟨s1, w0.calls ++ tr⟩) := hfr w0.calls
    rw [hv]
    unfold ExactlyOne at hone
    rintro ⟨h1, h2⟩
    rw [h1, h2] at hone
    exact absurd hone (by decide)

/-- Witness for C9: with a factory whose `KubeClient` succeeds and whose `Client`
fails, the restic restore initializer returns the error of `f.Client`. -/
theorem C9_handler_iff_all_steps_succeed_witness :
    ((newResticRestoreItemAction (veleroClientRefusingFactory "no route to host")
        freshWorld).1 sampleLogger freshWorld).1 = ⟨none, some ⟨"no route to host"⟩⟩ :=
  (C9_handler_iff_all_steps_succeed healthyExternals
    (veleroClientRefusingFactory "no route to host") freshWorld freshWorld
    sampleLogger).1.2.1 ⟨1⟩ ⟨"no route to host"⟩ 1 2 rfl rfl

/-- C10, as stated, fails in its last clause, on the factory of its own
scenario. With the factory whose `KubeClient` fails on its first call only, the
change-PVC-node-selector initializer invoked first returns the error; invoked
after a failed invocation of the change-storage-class initializer, built from
the same factory, it returns a handler. The failure of one initializer has
changed the result of another, through the factory both captured. -/
theorem C10_counterexample :
    ((newChangePVCNodeSelectorItemAction flakyFactory freshWorld).1 sampleLogger
        freshWorld).1 = ⟨none, some ⟨"connection refused"⟩⟩ ∧
    ((newChangeStorageClassRestoreItemAction flakyFactory freshWorld).1 sampleLogger
        freshWorld).1 = ⟨none, some ⟨"connection refused"⟩⟩ ∧
    ((newChangePVCNodeSelectorItemAction flakyFactory freshWorld).1 sampleLogger
        ((newChangeStorageClassRestoreItemAction flakyFactory freshWorld).1 sampleLogger
          freshWorld).2).1
      = ⟨some (restore.NewChangePVCNodeSelectorAction sampleLogger
          ((Clientset.mk 1).CoreV1_ConfigMaps "ns-a") (Clientset.mk 1).CoreV1_Nodes), none⟩ ∧
    ((newChangePVCNodeSelectorItemAction flakyFactory freshWorld).1 sampleLogger
        ((newChangeStorageClassRestoreItemAction flakyFactory freshWorld).1 sampleLogger
          freshWorld).2).1
      ≠ ((newChangePVCNodeSelectorItemAction flakyFactory freshWorld).1 sampleLogger
          freshWorld).1 := by
  refine ⟨by decide, by decide, by decide, by decide⟩

/-- C10, amended: a failed invocation leaves nothing behind in the initializers.
The result of invoking a registered initializer, and the state it leaves, depend
only on the state of the factory and of the external constructors at the time of
the invocation, not on what was invoked before. With a factory whose
`KubeClient` fails on one call and succeeds on the next, invoking the same
change-storage-class initializer twice yields the error and then a handler. A
failure of one initializer reaches another initializer built from the same
factory only through the state the collaborators are left in: after a failed
`f.KubeClient` call of the change-storage-class or change-PVC-node-selector
initializer that state is the one the accessor left, any initializer invoked
next returns what it returns when started in that state, and whenever an earlier
invocation left the state as it was, the later result is the one it would have
been without the earlier invocation. -/
theorem C10_failed_invocation_leaves_nothing_behind (ext : Externals σ) (f : Factory σ)
    (w : World σ) :
    (∀ (k : PluginConst) (lg : Logger) (s : σ) (t1 t2 : List Event),
      (k.initializer ext f w lg ⟨s, t1⟩).1 = (k.initializer ext f w lg ⟨s, t2⟩).1 ∧
      (k.initializer ext f w lg ⟨s, t1⟩).2.state
        = (k.initializer ext f w lg ⟨s, t2⟩).2.state) ∧
    (∀ (lg1 lg2 : Logger) (e : GoError) (c : Clientset) (s0 s1 s2 : σ) (t : List Event),
      f.KubeClient s0 = (.error e, s1) → f.KubeClient s1 = (.ok c, s2) →
      ((newChangeStorageClassRestoreItemAction f w).1 lg1 ⟨s0, t⟩).1 = ⟨none, some e⟩ ∧
      ((newChangeStorageClassRestoreItemAction f w).1 lg2
          ((newChangeStorageClassRestoreItemAction f w).1 lg1 ⟨s0, t⟩).2).1
        = ⟨some (restore.NewChangeStorageClassAction lg2
            (c.CoreV1_ConfigMaps (f.Namespace s2).1) c.StorageV1_StorageClasses), none⟩) ∧
    (∀ (lg1 : Logger) (e : GoError) (s0 s1 : σ) (t : List Event),
      f.KubeClient s0 = (.error e, s1) →
      ((newChangeStorageClassRestoreItemAction f w).1 lg1 ⟨s0, t⟩).2.state = s1 ∧
      ((newChangePVCNodeSelectorItemAction f w).1 lg1 ⟨s0, t⟩).2.state = s1 ∧
      ∀ (k2 : PluginConst) (lg2 : Logger) (t2 : List Event),
        (k2.initializer ext f w lg2
            ((newChangeStorageClassRestoreItemAction f w).1 lg1 ⟨s0, t⟩).2).1
          = (k2.initializer ext f w lg2 ⟨s1, t2⟩).1 ∧
        (k2.initializer ext f w lg2
            ((newChangePVCNodeSelectorItemAction f w).1 lg1 ⟨s0, t⟩).2).1
          = (k2.initializer ext f w lg2 ⟨s1, t2⟩).1) ∧
    (∀ (k1 k2 : PluginConst) (lg1 lg2 : Logger) (v : World σ),
      (k2.initializer ext f w lg2 (k1.initializer ext f w lg1 v).2).1
        = (k2.initializer ext f w lg2 ⟨(k1.initializer ext f w lg1 v).2.state, v.calls⟩).1 ∧
      ((k1.initializer ext f w lg1 v).2.state = v.state →
        (k2.initializer ext f w lg2 (k1.initializer ext f w lg1 v).2).1
          = (k2.initializer ext f w lg2 v).1)) := by
  have hlog : ∀ (k : PluginConst) (lg : Logger) (s : σ) (t1 t2 : List Event),
      (k.initializer ext f w lg ⟨s, t1⟩).1 = (k.initializer ext f w lg ⟨s, t2⟩).1 ∧
      (k.initializer ext f w lg ⟨s, t1⟩).2.state
        = (k.initializer ext f w lg ⟨s, t2⟩).2.state := by
    intro k lg s t1 t2
    obtain ⟨r, s1, tr, hfr, _⟩ := initializer_frame ext f w k lg s
    rw [hfr t1, hfr t2]
    exact ⟨rfl, rfl⟩
  refine ⟨hlog, ?_, ?_, ?_⟩
  · intro lg1 lg2 e c s0 s1 s2 t hK1 hK2
    rw [changeStorageClass_KubeClient_fails f w ⟨s0, t⟩ lg1 e s1 hK1]
    refine ⟨rfl, ?_⟩
    rw [changeStorageClass_succeeds f w _ lg2 c s2 hK2]
  · intro lg1 e s0 s1 t hK
    rw [changeStorageClass_KubeClient_fails f w ⟨s0, t⟩ lg1 e s1 hK,
      changePVCNodeSelector_KubeClient_fails f w ⟨s0, t⟩ lg1 e s1 hK]
    exact ⟨rfl, rfl, fun k2 lg2 t2 => ⟨(hlog k2 lg2 s1 _ t2).1, (hlog k2 lg2 s1 _ t2).1⟩⟩
  · intro k1 k2 lg1 lg2 v
    have h1 : (k2.initializer ext f w lg2 (k1.initializer ext f w lg1 v).2).1
        = (k2.initializer ext f w lg2
            ⟨(k1.initializer ext f w lg1 v).2.state, v.calls⟩).1 :=
      (hlog k2 lg2 (k1.initializer ext f w lg1 v).2.state
        (k1.initializer ext f w lg1 v).2.calls v.calls).1
    refine ⟨h1, fun hst => ?_⟩
    rw [h1, hst]

/-- Witness for the amended C10: the factory whose `KubeClient` fails on its first call only;
the first invocation of the change-storage-class initializer returns the error,
the second one a handler. -/
theorem C10_failed_invocation_leaves_nothing_behind_witness :
    ((newChangeStorageClassRestoreItemAction flakyFactory freshWorld).1 sampleLogger
        freshWorld).1 = ⟨none, some ⟨"connection refused"⟩⟩ ∧
    ((newChangeStorageClassRestoreItemAction flakyFactory freshWorld).1 sampleLogger
        ((newChangeStorageClassRestoreItemAction flakyFactory freshWorld).1 sampleLogger
          freshWorld).2).1
      = ⟨some (restore.NewChangeStorageClassAction sampleLogger
          ((Clientset.mk 1).CoreV1_ConfigMaps "ns-a")
          (Clientset.mk 1).StorageV1_StorageClasses), none⟩ :=
  (C10_failed_invocation_leaves_nothing_behind healthyExternals flakyFactory freshWorld).2.1
    sampleLogger sampleLogger ⟨"connection refused"⟩ ⟨1⟩ 0 1 2 [] rfl rfl

end Claims

end Velero
